import Mathlib

/-!
Verification of the plugin / webhook / configuration-store backend.

The definitions below are a shallow embedding of the TypeScript sources:
JavaScript values that flow through the handlers are modelled by the
inductive type Json, a thrown JavaScript exception by Except Unit, and each
SQLite table by a list of typed rows.  Every definition is translated
directly from the corresponding source function; file and symbol are named
in the doc comments.
-/

namespace Spec2Proof

/-- Model of a JavaScript/JSON value as produced by req.json().  Object
fields are kept in insertion order, mirroring JS object semantics; numbers
are modelled as integers (all numbers relevant to the claims are ids). -/
inductive Json where
  | null
  | str (s : String)
  | num (n : Int)
  | bool (b : Bool)
  | arr (elems : List Json)
  | obj (fields : List (String × Json))
deriving Repr, Inhabited

/-- JavaScript truthiness of a value. -/
def truthy : Json → Bool
  | .null => false
  | .str s => s ≠ ""
  | .num n => n ≠ 0
  | .bool b => b
  | .arr _ => true
  | .obj _ => true

/-- Property access v.k: fields of an object, undefined (none) otherwise.
The named properties read by the handlers never collide with string/array
index properties, so those are not modelled. -/
def jsField : Json → String → Option Json
  | .obj fs, k => fs.lookup k
  | _, _ => none

/-- Truthiness of a possibly-undefined value (undefined is falsy). -/
def truthyOpt : Option Json → Bool
  | none => false
  | some j => truthy j

/-- Index access v[0] as used on webhook payloads: array element, first
character of a string, field "0" of an object, undefined otherwise. -/
def jsIndex0 : Json → Option Json
  | .arr xs => xs.head?
  | .str s => if s = "" then none else some (.str (s.take 1))
  | .obj fs => fs.lookup "0"
  | _ => none

/-- The .length property: defined for strings and arrays only. -/
def jsLength : Json → Option Int
  | .str s => some s.length
  | .arr xs => some xs.length
  | _ => none

/-- Assignment m[k] = v on a JS object: overwrite in place, else append. -/
def setKey {α : Type} : List (String × α) → String → α → List (String × α)
  | [], k, v => [(k, v)]
  | (k', v') :: rest, k, v =>
      if k' = k then (k, v) :: rest else (k', v') :: setKey rest k v

/-- Error maps produced by validateConfig: key → message, JS-object style. -/
abbrev ErrMap : Type := List (String × String)

/-- Object.assign(base, overlay): copy every field of overlay onto base. -/
def jsAssign (base overlay : ErrMap) : ErrMap :=
  overlay.foldl (fun m kv => setKey m kv.1 kv.2) base

/-- Whether an error map names a key. -/
def hasKey (m : ErrMap) (k : String) : Bool :=
  (List.lookup k m).isSome

/-- Field types of a plugin config schema (plugin-interface.ts,
PluginConfigField.type). -/
inductive FieldType where
  | string | number | boolean | select | password
deriving Repr, DecidableEq

/-- One entry of a plugin's configSchema (plugin-interface.ts,
PluginConfigField).  Options/placeholder/description are not read by any
handler and are omitted. -/
structure ConfigField where
  key : String
  label : String
  type : FieldType
  required : Bool
  default : Option Json := none
deriving Repr

/-- The required-field test of BasePlugin.validateConfig
(base-plugin.ts:73): a value is missing when it is undefined, null, or the
empty string. -/
def isMissing : Option Json → Bool
  | none => true
  | some .null => true
  | some (.str s) => s = ""
  | some _ => false

/-- The required-field loop of BasePlugin.validateConfig
(base-plugin.ts:71-76): for every required schema field whose value is
missing, set errors[key] to "label is required". -/
def requiredErrors (schema : List ConfigField) (config : Json) : ErrMap :=
  schema.foldl
    (fun errors field =>
      if field.required && isMissing (jsField config field.key) then
        setKey errors field.key (field.label ++ " is required")
      else errors)
    []

/-- Result of validateConfig (plugin-interface.ts, ValidationResult). -/
structure ValidationResult where
  valid : Bool
  errors : ErrMap
deriving Repr, DecidableEq

/-- A chat message as produced by handleWebhook (plugin-interface.ts,
ChatMessage).  Fields that may be undefined at runtime are Options. -/
structure ChatMessage where
  agentId : Option Json
  platform : String
  direction : String
  messageType : String
  content : Json
  userId : Option Json
  userName : Option Json
  metadata : Option Json
deriving Repr

/-- A platform plugin as registered in the registry.  The three hook
fields model the protected methods a concrete plugin overrides; a hook
that throws is an Except.error.  handleWebhook is the concrete plugin's
complete (try/catch-wrapped) webhook parser. -/
structure Plugin where
  id : String
  name : String
  platform : String
  version : String
  configSchema : List ConfigField
  onValidateConfig : Json → Except Unit ErrMap
  onInitHook : Json → Except Unit Unit
  handleWebhook : Json → Except Unit (Option ChatMessage)

/-- BasePlugin.validateConfig (base-plugin.ts:68-88): merge the generic
required-field errors with the platform hook's errors (Object.assign, so
the platform message wins on a shared key); valid iff no keys remain.  If
the platform hook throws, the exception propagates to the caller. -/
def validateConfig (p : Plugin) (config : Json) : Except Unit ValidationResult := do
  let base := requiredErrors p.configSchema config
  let platformErrors ← p.onValidateConfig config
  let errors := jsAssign base platformErrors
  return { valid := errors.isEmpty, errors := errors }

/-- Mutable per-instance state of a BasePlugin: current config and the
enabled flag (base-plugin.ts:20-22). -/
structure PluginState where
  plugin : Plugin
  config : Json
  enabled : Bool

/-- BasePlugin.initialize (base-plugin.ts:38-59): validate (propagating a
thrown platform validation hook), return false on invalid config without
touching the state, otherwise store a copy of the config, set enabled,
run the platform init hook, and on a thrown hook reset enabled and return
false. -/
def initPlugin (st : PluginState) (config : Json) :
    Except Unit (Bool × PluginState) := do
  let vr ← validateConfig st.plugin config
  if !vr.valid then
    return (false, st)
  let st' : PluginState := { st with config := config, enabled := true }
  match st.plugin.onInitHook config with
  | .error _ => return (false, { st' with enabled := false })
  | .ok _ => return (true, st')

/-! ### Concrete plugins (whatsapp-plugin.ts, part_011 WordPressPlugin,
html-css-plugin.ts), as loaded by plugin-registry-loader.ts. -/

/-- BasePlugin.createIncomingMessage (base-plugin.ts:141-162), without the
wall-clock timestamp (real time is outside the model). -/
def createIncomingMessage (platform : String) (agentId : Option Json)
    (content : Json) (userId : Option Json) (userName : Option Json)
    (messageType : String) (metadata : Option Json) : ChatMessage :=
  { agentId := agentId, platform := platform, direction := "incoming",
    messageType := messageType, content := content, userId := userId,
    userName := userName, metadata := metadata }

/-- JS value.match(/^\d+$/) truthiness: on a string, whether it is one or
more digits; on any other (truthy) value a TypeError is thrown because the
value has no .match method. -/
def jsMatchAllDigits : Json → Except Unit Bool
  | .str s => .ok (s ≠ "" && s.toList.all Char.isDigit)
  | _ => .error ()

/-- JS value.match(/^https?:\/\/.+/) truthiness; non-strings throw. -/
def jsMatchHttpUrl : Json → Except Unit Bool
  | .str s => .ok ((s.startsWith "http://" && s.length > 7) ||
                   (s.startsWith "https://" && s.length > 8))
  | _ => .error ()

/-- ASCII letter-or-digit, the [a-zA-Z0-9] character class. -/
def isAlnum (c : Char) : Bool := c.isDigit || c.isUpper || c.isLower

/-- The leading part of the domain regex in html-css-plugin.ts:
[a-zA-Z0-9][a-zA-Z0-9-]{0,61}[a-zA-Z0-9] (2 to 63 chars, alnum ends,
alnum-or-hyphen middle, no dots). -/
def domainBaseOk (b : String) : Bool :=
  let cs := b.toList
  decide (2 ≤ cs.length) && decide (cs.length ≤ 63) &&
  (cs.head?.elim false isAlnum) && (cs.getLast?.elim false isAlnum) &&
  ((cs.drop 1).dropLast.all fun c => isAlnum c || c = '-')

/-- The full anchored domain regex
^[a-zA-Z0-9][a-zA-Z0-9-]{0,61}[a-zA-Z0-9](?:\.[a-zA-Z]{2,})+$ : a base
label followed by at least one dot-separated all-letter label of length at
least 2.  Since neither part may contain a dot, matching is equivalent to
this split-on-dots test. -/
def domainMatch (d : String) : Bool :=
  match d.splitOn "." with
  | [] => false
  | base :: tlds =>
      !tlds.isEmpty && domainBaseOk base &&
      tlds.all fun t => decide (2 ≤ t.length) && t.toList.all Char.isAlpha

/-- JS value.match(/^#[0-9A-Fa-f]{6}$/) truthiness; non-strings throw. -/
def jsMatchHexColor : Json → Except Unit Bool
  | .str s => .ok (s.length = 7 && s.startsWith "#" &&
      ((s.drop 1).toList.all fun c =>
        c.isDigit || (decide ('a' ≤ c) && decide (c ≤ 'f')) ||
        (decide ('A' ≤ c) && decide (c ≤ 'F'))))
  | _ => .error ()

/-- WhatsAppPlugin.onValidateConfig (whatsapp-plugin.ts:146-160).  The
phone-number check calls .match on the supplied value whenever it is
truthy, so a truthy non-string phoneNumberId throws.  The access-token
check reads .length, which is undefined (hence never < 10) on values other
than strings and arrays. -/
def whatsappOnValidateConfig (config : Json) : Except Unit ErrMap := do
  let errors : ErrMap := []
  let pn := jsField config "phoneNumberId"
  let errors ←
    if truthyOpt pn then do
      let ok ← jsMatchAllDigits (pn.getD .null)
      pure (if ok then errors
            else setKey errors "phoneNumberId" "Phone Number ID must contain only digits")
    else pure errors
  let tok := jsField config "accessToken"
  let errors :=
    if truthyOpt tok then
      match jsLength (tok.getD .null) with
      | some l => if l < 10 then setKey errors "accessToken" "Access Token is too short"
                  else errors
      | none => errors
    else errors
  return errors

/-- WhatsAppPlugin.onInitialize (whatsapp-plugin.ts:66-74): testConnection
reports connected iff phoneNumberId and accessToken are truthy in the
stored config; a failed connection makes the hook throw. -/
def whatsappOnInitHook (config : Json) : Except Unit Unit :=
  if truthyOpt (jsField config "phoneNumberId") &&
     truthyOpt (jsField config "accessToken") then .ok () else .error ()

/-- A JS object literal whose values may be undefined; undefined-valued
keys are dropped (no handler distinguishes a dropped key from an
undefined-valued one). -/
def jsObjOfOpt (fs : List (String × Option Json)) : Json :=
  .obj (fs.filterMap fun kv => kv.2.map fun v => (kv.1, v))

/-- WhatsAppPlugin.handleWebhook (whatsapp-plugin.ts:106-144).  The body
is wrapped in try/catch returning null; the only reachable throw is the
changes.value access when entry.changes[0] is undefined or null, so those
paths also produce null. -/
def whatsappHandleWebhook (payload : Json) : Except Unit (Option ChatMessage) :=
  if !truthy payload then .ok none else
  match jsField payload "entry" with
  | none => .ok none
  | some entry =>
    if !truthy entry then .ok none else
    match jsIndex0 entry with
    | none => .ok none
    | some e0 =>
      if !truthy e0 then .ok none else
      match jsField e0 "changes" with
      | none => .ok none
      | some changesArr =>
        if !truthy changesArr then .ok none else
        match jsIndex0 changesArr with
        | none => .ok none
        | some c0 =>
          match jsField c0 "value" with
          | none => .ok none
          | some v =>
            if !truthy v then .ok none else
            match jsField v "messages" with
            | none => .ok none
            | some msgs =>
              if !truthy msgs then .ok none else
              match jsIndex0 msgs with
              | none => .ok none
              | some m =>
                if !truthy m then .ok none else
                let sender := jsField m "from"
                let body := (jsField m "text").bind (jsField · "body")
                let messageText : Json :=
                  match body with
                  | some b => if truthy b then b else .str ""
                  | none => .str ""
                let agentId : Json :=
                  match jsField payload "agent_id" with
                  | some a => if truthy a then a else .num 1
                  | none => .num 1
                .ok (some (createIncomingMessage "whatsapp" (some agentId)
                  messageText sender none "text"
                  (some (jsObjOfOpt
                    [("messageId", jsField m "id"),
                     ("timestamp", jsField m "timestamp"),
                     ("type", jsField m "type")]))))

/-- WhatsAppPlugin config schema (whatsapp-plugin.ts:18-55). -/
def whatsappSchema : List ConfigField :=
  [ { key := "phoneNumberId", label := "Phone Number ID", type := .string,
      required := true },
    { key := "accessToken", label := "Access Token", type := .password,
      required := true },
    { key := "apiVersion", label := "API Version", type := .string,
      required := true, default := some (.str "v17.0") },
    { key := "verifyToken", label := "Verify Token", type := .string,
      required := true },
    { key := "businessName", label := "Business Name", type := .string,
      required := true } ]

/-- The WhatsApp plugin instance registered at module load
(whatsapp-plugin.ts:211-212). -/
def whatsappPlugin : Plugin :=
  { id := "whatsapp", name := "WhatsApp Integration", platform := "whatsapp",
    version := "1.0.0", configSchema := whatsappSchema,
    onValidateConfig := whatsappOnValidateConfig,
    onInitHook := whatsappOnInitHook,
    handleWebhook := whatsappHandleWebhook }

/-- WordPressPlugin.onValidateConfig: the siteUrl format check (.match on
a truthy value, so truthy non-strings throw) and the specificPages
requirement when embedLocation is exactly the string "specific". -/
def wordpressOnValidateConfig (config : Json) : Except Unit ErrMap := do
  let errors : ErrMap := []
  let site := jsField config "siteUrl"
  let errors ←
    if truthyOpt site then do
      let ok ← jsMatchHttpUrl (site.getD .null)
      pure (if ok then errors
            else setKey errors "siteUrl"
              "Site URL must be a valid URL starting with http:// or https://")
    else pure errors
  let isSpecific :=
    match jsField config "embedLocation" with
    | some (.str s) => s = "specific"
    | _ => false
  let errors :=
    if isSpecific && !truthyOpt (jsField config "specificPages") then
      setKey errors "specificPages"
        "You must specify page IDs when \"Specific Pages\" is selected"
    else errors
  return errors

/-- WordPressPlugin.onInitialize: testConnection succeeds iff siteUrl is a
string matching the URL pattern (a truthy non-string makes .match throw
inside testConnection's own catch, reporting not connected); a failed
connection makes the hook throw. -/
def wordpressOnInitHook (config : Json) : Except Unit Unit :=
  match jsField config "siteUrl" with
  | some (.str s) =>
      if (s.startsWith "http://" && s.length > 7) ||
         (s.startsWith "https://" && s.length > 8) then .ok () else .error ()
  | _ => .error ()

/-- WordPressPlugin.handleWebhook: null unless payload, payload.user_id
and payload.message are all truthy. -/
def wordpressHandleWebhook (payload : Json) : Except Unit (Option ChatMessage) :=
  if !(truthy payload && truthyOpt (jsField payload "user_id") &&
       truthyOpt (jsField payload "message")) then .ok none
  else .ok (some (createIncomingMessage "wordpress"
      (jsField payload "agent_id")
      ((jsField payload "message").getD .null)
      (jsField payload "user_id")
      (jsField payload "user_name")
      "text"
      (jsField payload "metadata")))

/-- WordPressPlugin config schema (part_011:17-61). -/
def wordpressSchema : List ConfigField :=
  [ { key := "siteUrl", label := "WordPress Site URL", type := .string,
      required := true },
    { key := "apiKey", label := "API Key", type := .password,
      required := true },
    { key := "apiSecret", label := "API Secret", type := .password,
      required := true },
    { key := "embedLocation", label := "Embed Location", type := .select,
      required := true, default := some (.str "all") },
    { key := "specificPages", label := "Specific Pages", type := .string,
      required := false } ]

/-- The WordPress plugin instance registered at module load. -/
def wordpressPlugin : Plugin :=
  { id := "wordpress", name := "WordPress Integration",
    platform := "wordpress", version := "1.0.0",
    configSchema := wordpressSchema,
    onValidateConfig := wordpressOnValidateConfig,
    onInitHook := wordpressOnInitHook,
    handleWebhook := wordpressHandleWebhook }

/-- HtmlCssPlugin.onValidateConfig (html-css-plugin.ts:147-176): domain
list parsing (.split on a truthy non-string throws) and hex color checks
(.match on a truthy non-string throws). -/
def htmlCssOnValidateConfig (config : Json) : Except Unit ErrMap := do
  let errors : ErrMap := []
  let ad := jsField config "allowedDomains"
  let errors ←
    if truthyOpt ad then
      match ad.getD .null with
      | .str s =>
        let domains := (s.splitOn ",").map (·.trim)
        if domains.length = 0 then
          pure (setKey errors "allowedDomains"
            "At least one allowed domain must be specified")
        else
          let invalidDomains := domains.filter fun d => !domainMatch d
          if invalidDomains.length > 0 then
            pure (setKey errors "allowedDomains"
              ("Invalid domain format: " ++ String.intercalate ", " invalidDomains))
          else pure errors
      | _ => .error ()
    else pure errors
  let pc := jsField config "primaryColor"
  let errors ←
    if truthyOpt pc then do
      let ok ← jsMatchHexColor (pc.getD .null)
      pure (if ok then errors
            else setKey errors "primaryColor"
              "Primary color must be a valid hex color code (e.g., #0084ff)")
    else pure errors
  let sc := jsField config "secondaryColor"
  let errors ←
    if truthyOpt sc then do
      let ok ← jsMatchHexColor (sc.getD .null)
      pure (if ok then errors
            else setKey errors "secondaryColor"
              "Secondary color must be a valid hex color code (e.g., #ffffff)")
    else pure errors
  return errors

/-- HtmlCssPlugin.onInitialize (html-css-plugin.ts:99-108):
allowedDomains?.split(",") gives at least one element for any string, the
optional chain turns undefined or null into an empty list (then the hook
throws), and .split on any other value throws. -/
def htmlCssOnInitHook (config : Json) : Except Unit Unit :=
  match jsField config "allowedDomains" with
  | some (.str _) => .ok ()
  | _ => .error ()

/-- HtmlCssPlugin.handleWebhook: null unless payload, payload.userId and
payload.message are all truthy. -/
def htmlCssHandleWebhook (payload : Json) : Except Unit (Option ChatMessage) :=
  if !(truthy payload && truthyOpt (jsField payload "userId") &&
       truthyOpt (jsField payload "message")) then .ok none
  else .ok (some (createIncomingMessage "html-css"
      (jsField payload "agentId")
      ((jsField payload "message").getD .null)
      (jsField payload "userId")
      (jsField payload "userName")
      "text"
      (jsField payload "metadata")))

/-- HtmlCssPlugin config schema (html-css-plugin.ts:18-88). -/
def htmlCssSchema : List ConfigField :=
  [ { key := "allowedDomains", label := "Allowed Domains", type := .string,
      required := true },
    { key := "chatbotTitle", label := "Chatbot Title", type := .string,
      required := true, default := some (.str "Chat with us") },
    { key := "primaryColor", label := "Primary Color", type := .string,
      required := true, default := some (.str "#0084ff") },
    { key := "secondaryColor", label := "Secondary Color", type := .string,
      required := false, default := some (.str "#ffffff") },
    { key := "position", label := "Widget Position", type := .select,
      required := true, default := some (.str "bottom-right") },
    { key := "customCSS", label := "Custom CSS", type := .string,
      required := false },
    { key := "autoOpen", label := "Auto Open", type := .boolean,
      required := false, default := some (.bool false) },
    { key := "showOnMobile", label := "Show on Mobile", type := .boolean,
      required := false, default := some (.bool true) } ]

/-- The HTML & CSS plugin instance registered at module load. -/
def htmlCssPlugin : Plugin :=
  { id := "html-css", name := "HTML & CSS Integration",
    platform := "html-css", version := "1.0.0",
    configSchema := htmlCssSchema,
    onValidateConfig := htmlCssOnValidateConfig,
    onInitHook := htmlCssOnInitHook,
    handleWebhook := htmlCssHandleWebhook }

/-! ### Plugin registry (plugin-interface.ts, PluginRegistry) -/

/-- PluginRegistry.registerPlugin: a JS Map keyed by plugin id in
insertion order; setting an existing key overwrites in place, a new key is
appended (last registration wins silently). -/
def registerPlugin (reg : List Plugin) (p : Plugin) : List Plugin :=
  if reg.any fun q => q.id = p.id then
    reg.map fun q => if q.id = p.id then p else q
  else reg ++ [p]

/-- PluginRegistry.getPlugin: lookup by id. -/
def getPlugin (reg : List Plugin) (id : String) : Option Plugin :=
  reg.find? fun p => p.id = id

/-- PluginRegistry.getPluginsByPlatform: all registered plugins whose
platform matches, in registration order. -/
def getPluginsByPlatform (reg : List Plugin) (platform : String) : List Plugin :=
  reg.filter fun p => p.platform = platform

/-- The registry as populated by plugin-registry-loader.ts, whose imports
run the three registration side effects in order: wordpress, whatsapp,
html-css (html-css-plugin-enhanced is never imported). -/
def loadedRegistry : List Plugin :=
  registerPlugin (registerPlugin (registerPlugin [] wordpressPlugin)
    whatsappPlugin) htmlCssPlugin

/-! ### Webhook dispatcher (api/webhooks/[platform]/route.ts) -/

/-- A NextResponse.json reply: HTTP status plus JSON body. -/
structure HttpResponse where
  status : Nat
  body : Json
deriving Repr

/-- Shorthand for NextResponse.json(body, status). -/
def jsonResp (status : Nat) (body : Json) : HttpResponse :=
  { status := status, body := body }

/-- JSON.stringify string escaping, covering quote and backslash (the
characters occurring in the configuration values of the claims). -/
def jsEscape (s : String) : String :=
  s.foldl
    (fun acc c =>
      acc ++ (if c = '\"' then "\\\""
              else if c = '\\' then "\\\\"
              else String.singleton c))
    ""

/-- JSON.stringify, used to produce the config column text
(api/plugins/route.ts stores JSON.stringify(config)). -/
def jsonStringify : Json → String
  | .null => "null"
  | .str s => "\"" ++ jsEscape s ++ "\""
  | .num n => toString n
  | .bool b => cond b "true" "false"
  | .arr xs =>
      "[" ++ String.intercalate ","
        (xs.attach.map fun x => jsonStringify x.1) ++ "]"
  | .obj fs =>
      "\x7b" ++ String.intercalate ","
        (fs.attach.map fun kv =>
          "\"" ++ jsEscape kv.1.1 ++ "\":" ++ jsonStringify kv.1.2) ++ "\x7d"
decreasing_by
  · have h := List.sizeOf_lt_of_mem x.2
    simp only [Json.arr.sizeOf_spec]
    omega
  · have h := List.sizeOf_lt_of_mem kv.2
    have h2 : sizeOf kv.1.2 < sizeOf kv.1 := by
      obtain ⟨k, v⟩ := kv.1
      simp
    simp only [Json.obj.sizeOf_spec]
    omega

/-- The payload handed to each plugin: the object spread
(route.ts:40-43) copies an object's fields, a string's or array's index
properties, nothing from other primitives, and then sets platform. -/
def spreadWithPlatform (payload : Json) (platform : String) : Json :=
  let base : List (String × Json) :=
    match payload with
    | .obj fs => fs
    | .arr xs => xs.enum.map fun p => (toString p.1, p.2)
    | .str s => s.toList.enum.map fun p => (toString p.1, Json.str (String.singleton p.2))
    | _ => []
  .obj (setKey base "platform" (.str platform))

/-- The plugin loop of POST /api/webhooks/[platform] (route.ts:37-63): try
each candidate plugin in order; a thrown handleWebhook is caught and
logged and the loop continues with the next plugin; the first non-null
message ends the loop.  Returns that first message (if any) together with
the ids of the plugins whose handleWebhook actually ran. -/
def runPlugins (payload : Json) : List Plugin → Option ChatMessage × List String
  | [] => (none, [])
  | p :: rest =>
    match p.handleWebhook payload with
    | .ok (some m) => (some m, [p.id])
    | .ok none => ((runPlugins payload rest).1, p.id :: (runPlugins payload rest).2)
    | .error _ => ((runPlugins payload rest).1, p.id :: (runPlugins payload rest).2)

/-- POST /api/webhooks/[platform] (route.ts:20-75): 400 on an empty
platform segment, 404 when no registered plugin claims the platform,
otherwise run the plugin loop and acknowledge with 200 either way. -/
def webhookPOST (reg : List Plugin) (platform : String) (payload : Json) :
    HttpResponse × List String :=
  if platform = "" then
    (jsonResp 400 (.obj [("error", .str "Platform not specified")]), [])
  else
    let plugins := getPluginsByPlatform reg platform
    if plugins.isEmpty then
      (jsonResp 404 (.obj [("error",
        .str ("No plugins found for platform: " ++ platform))]), [])
    else
      match runPlugins (spreadWithPlatform payload platform) plugins with
      | (some _, trace) =>
        (jsonResp 200 (.obj [("success", .bool true),
          ("message", .str "Webhook processed successfully"),
          ("platform", .str platform)]), trace)
      | (none, trace) =>
        (jsonResp 200 (.obj [("success", .bool true),
          ("message", .str "Webhook received but no handler found"),
          ("platform", .str platform)]), trace)

/-! ### Plugin configuration store (part_012, PluginDatabase) -/

/-- A row of the plugin_configs table (part_012:61-73). -/
structure PluginConfigRow where
  id : Nat
  plugin_id : String
  user_id : String
  agent_id : Int
  platform : String
  config : String
  enabled : Bool
  created_at : String
  updated_at : String
deriving Repr, DecidableEq

/-- The plugin_configs table: rows in rowid order plus the AUTOINCREMENT
counter. -/
structure PluginDb where
  rows : List PluginConfigRow
  nextId : Nat
deriving Repr, DecidableEq

/-- PluginDatabase.getPluginConfigById (part_012:112-120). -/
def getPluginConfigById (db : PluginDb) (id : Nat) : Option PluginConfigRow :=
  db.rows.find? fun r => r.id = id

/-- PluginDatabase.getPluginConfigByPluginId (part_012:122-130). -/
def getPluginConfigByPluginId (db : PluginDb) (pluginId userId : String)
    (agentId : Int) : Option PluginConfigRow :=
  db.rows.find? fun r =>
    r.plugin_id = pluginId && r.user_id = userId && r.agent_id = agentId

/-- Argument record of createPluginConfig (the row minus id and
timestamps). -/
structure NewPluginConfig where
  plugin_id : String
  user_id : String
  agent_id : Int
  platform : String
  config : String
  enabled : Bool

/-- PluginDatabase.createPluginConfig (part_012:132-161): INSERT with
fresh rowid and both timestamps now.  A row violating
UNIQUE(plugin_id, user_id, agent_id) makes the INSERT throw; the catch
returns null and the table is unchanged. -/
def createPluginConfig (db : PluginDb) (c : NewPluginConfig) (now : String) :
    Option PluginConfigRow × PluginDb :=
  if db.rows.any fun r =>
      r.plugin_id = c.plugin_id && r.user_id = c.user_id &&
      r.agent_id = c.agent_id then
    (none, db)
  else
    let row : PluginConfigRow :=
      { id := db.nextId, plugin_id := c.plugin_id, user_id := c.user_id,
        agent_id := c.agent_id, platform := c.platform, config := c.config,
        enabled := c.enabled, created_at := now, updated_at := now }
    (some row, { rows := db.rows ++ [row], nextId := db.nextId + 1 })

/-- The partial update record of updatePluginConfig: a field is changed
exactly when it is present (part_012:176-204 builds the SET clause from
the fields that are not undefined). -/
structure RowUpdates where
  plugin_id : Option String := none
  user_id : Option String := none
  agent_id : Option Int := none
  platform : Option String := none
  config : Option String := none
  enabled : Option Bool := none

/-- One row after the dynamic UPDATE: each supplied field replaces the old
value and updated_at is always stamped (part_012:206-207). -/
def applyUpdates (r : PluginConfigRow) (u : RowUpdates) (now : String) :
    PluginConfigRow :=
  { r with
    plugin_id := u.plugin_id.getD r.plugin_id,
    user_id := u.user_id.getD r.user_id,
    agent_id := u.agent_id.getD r.agent_id,
    platform := u.platform.getD r.platform,
    config := u.config.getD r.config,
    enabled := u.enabled.getD r.enabled,
    updated_at := now }

/-- Whether the dynamic UPDATE of part_012:212-218 would violate
UNIQUE(plugin_id, user_id, agent_id): some addressed row (id is the
INTEGER PRIMARY KEY, so rows with another id are the other rows), once
rewritten by the updates, carries the key triple of a distinct row. -/
def updateViolatesUnique (db : PluginDb) (id : Nat) (u : RowUpdates)
    (now : String) : Bool :=
  db.rows.any fun r =>
    r.id = id && db.rows.any fun r2 =>
      r2.id ≠ id &&
      (applyUpdates r u now).plugin_id = r2.plugin_id &&
      (applyUpdates r u now).user_id = r2.user_id &&
      (applyUpdates r u now).agent_id = r2.agent_id

/-- PluginDatabase.updatePluginConfig (part_012:163-225): null and no
write when the id is absent; the UPDATE ... WHERE id = ? touches exactly
the rows with that id, but when the rewritten row would violate
UNIQUE(plugin_id, user_id, agent_id) SQLite throws, the statement leaves
the table unchanged, and the catch of part_012:221-224 returns null;
otherwise the updated row is re-read and returned. -/
def updatePluginConfig (db : PluginDb) (id : Nat) (u : RowUpdates)
    (now : String) : Option PluginConfigRow × PluginDb :=
  match getPluginConfigById db id with
  | none => (none, db)
  | some _ =>
    if updateViolatesUnique db id u now then (none, db)
    else
      let db' : PluginDb :=
        { rows := db.rows.map fun r => if r.id = id then applyUpdates r u now else r,
          nextId := db.nextId }
      (getPluginConfigById db' id, db')

/-- PluginDatabase.deletePluginConfig (part_012:227-236): DELETE WHERE
id = ?; true iff at least one row was removed. -/
def deletePluginConfig (db : PluginDb) (id : Nat) : Bool × PluginDb :=
  ((db.rows.any fun r => r.id = id),
   { rows := db.rows.filter fun r => r.id ≠ id, nextId := db.nextId })

/-! ### Plugin configuration routes (api/plugins/route.ts).  Each handler
is modelled from the point after authentication succeeded: userId is the
authenticated user id.  Path ids arrive already parsed (the routes 400 on
a non-numeric id before touching anything); a missing or falsy body
pluginId is modelled by "", a missing or falsy numeric field by 0. -/

/-- An errors map rendered into the validationErrors response field. -/
def errsToJson (m : ErrMap) : Json :=
  .obj (m.map fun kv => (kv.1, .str kv.2))

/-- The success body shared by POST /api/plugins and PUT /api/plugins
(route.ts:136-142, 215-221). -/
def configSuccessBody (row : PluginConfigRow) : Json :=
  .obj [("success", .bool true), ("configId", .num (row.id : Int)),
        ("pluginId", .str row.plugin_id), ("agentId", .num row.agent_id),
        ("enabled", .bool row.enabled)]

/-- POST /api/plugins (route.ts:73-147): guard the body fields, look the
plugin up, validate the config (a thrown platform validation hook is
caught by the route's outer catch, giving 500), then upsert: update the
row matching (pluginId, userId, agentId) if it exists, else insert. -/
def postPlugins (reg : List Plugin) (userId : String) (pluginId : String)
    (agentId : Int) (config : Option Json) (enabledField : Option Json)
    (db : PluginDb) (now : String) : HttpResponse × PluginDb :=
  if pluginId = "" || agentId = 0 || !truthyOpt config then
    (jsonResp 400 (.obj [("error",
      .str "Missing required fields: pluginId, agentId, and config are required")]), db)
  else
    match getPlugin reg pluginId with
    | none => (jsonResp 404 (.obj [("error", .str "Plugin not found")]), db)
    | some plugin =>
      match validateConfig plugin (config.getD .null) with
      | .error _ =>
        (jsonResp 500 (.obj [("error", .str "Failed to configure plugin")]), db)
      | .ok vr =>
        if !vr.valid then
          (jsonResp 400 (.obj [("error", .str "Invalid plugin configuration"),
            ("validationErrors", errsToJson vr.errors)]), db)
        else
          match getPluginConfigByPluginId db pluginId userId agentId with
          | some existing =>
            match updatePluginConfig db existing.id
                { config := some (jsonStringify (config.getD .null)),
                  enabled := some (enabledField.elim existing.enabled truthy) }
                now with
            | (some row, db') => (jsonResp 200 (configSuccessBody row), db')
            | (none, db') =>
              (jsonResp 500 (.obj [("error",
                .str "Failed to save plugin configuration")]), db')
          | none =>
            match createPluginConfig db
                { plugin_id := pluginId, user_id := userId,
                  agent_id := agentId, platform := plugin.platform,
                  config := jsonStringify (config.getD .null),
                  enabled := enabledField.elim false truthy } now with
            | (some row, db') => (jsonResp 200 (configSuccessBody row), db')
            | (none, db') =>
              (jsonResp 500 (.obj [("error",
                .str "Failed to save plugin configuration")]), db')

/-- PUT /api/plugins (route.ts:150-226), the by-configId-in-body variant:
guard configId, 404 on an unknown row, 403 when the authenticated user is
not the row owner, validate a supplied config against the plugin's schema,
then apply the partial update. -/
def putPlugins (reg : List Plugin) (userId : String) (configId : Nat)
    (bodyConfig : Option Json) (bodyEnabled : Option Json)
    (db : PluginDb) (now : String) : HttpResponse × PluginDb :=
  if configId = 0 then
    (jsonResp 400 (.obj [("error", .str "Missing required field: configId")]), db)
  else
    match getPluginConfigById db configId with
    | none =>
      (jsonResp 404 (.obj [("error", .str "Plugin configuration not found")]), db)
    | some existing =>
      if existing.user_id ≠ userId then
        (jsonResp 403 (.obj [("error",
          .str "You do not have permission to modify this configuration")]), db)
      else
        match bodyConfig with
        | some newCfg =>
          match getPlugin reg existing.plugin_id with
          | none => (jsonResp 404 (.obj [("error", .str "Plugin not found")]), db)
          | some plugin =>
            match validateConfig plugin newCfg with
            | .error _ =>
              (jsonResp 500 (.obj [("error",
                .str "Failed to update plugin configuration")]), db)
            | .ok vr =>
              if !vr.valid then
                (jsonResp 400 (.obj [("error", .str "Invalid plugin configuration"),
                  ("validationErrors", errsToJson vr.errors)]), db)
              else
                match updatePluginConfig db configId
                    { config := some (jsonStringify newCfg),
                      enabled := bodyEnabled.map truthy } now with
                | (some row, db') => (jsonResp 200 (configSuccessBody row), db')
                | (none, db') =>
                  (jsonResp 500 (.obj [("error",
                    .str "Failed to update plugin configuration")]), db')
        | none =>
          match updatePluginConfig db configId
              { enabled := bodyEnabled.map truthy } now with
          | (some row, db') => (jsonResp 200 (configSuccessBody row), db')
          | (none, db') =>
            (jsonResp 500 (.obj [("error",
              .str "Failed to update plugin configuration")]), db')

/-- The response of PUT /api/plugins/:id on success (route.ts:395-404).
The parsed-config echo is omitted from the modelled body (JSON.parse of
the stored text is not modelled; no claim reads it). -/
def putByIdSuccessBody (row : PluginConfigRow) : Json :=
  .obj [("id", .num (row.id : Int)), ("pluginId", .str row.plugin_id),
        ("agentId", .num row.agent_id), ("platform", .str row.platform),
        ("enabled", .bool row.enabled), ("createdAt", .str row.created_at),
        ("updatedAt", .str row.updated_at)]

/-- PUT /api/plugins/:id (route.ts:319-409): lookup, ownership check (403
before the body is consulted), optional config validation, partial
update. -/
def putPluginsById (reg : List Plugin) (userId : String) (configId : Nat)
    (bodyConfig : Option Json) (bodyEnabled : Option Json)
    (db : PluginDb) (now : String) : HttpResponse × PluginDb :=
  match getPluginConfigById db configId with
  | none =>
    (jsonResp 404 (.obj [("error", .str "Plugin configuration not found")]), db)
  | some existing =>
    if existing.user_id ≠ userId then
      (jsonResp 403 (.obj [("error",
        .str "You do not have permission to modify this configuration")]), db)
    else
      match bodyConfig with
      | some newCfg =>
        match getPlugin reg existing.plugin_id with
        | none => (jsonResp 404 (.obj [("error", .str "Plugin not found")]), db)
        | some plugin =>
          match validateConfig plugin newCfg with
          | .error _ =>
            (jsonResp 500 (.obj [("error",
              .str "Failed to update plugin configuration")]), db)
          | .ok vr =>
            if !vr.valid then
              (jsonResp 400 (.obj [("error", .str "Invalid plugin configuration"),
                ("validationErrors", errsToJson vr.errors)]), db)
            else
              match updatePluginConfig db configId
                  { config := some (jsonStringify newCfg),
                    enabled := bodyEnabled.map truthy } now with
              | (some row, db') => (jsonResp 200 (putByIdSuccessBody row), db')
              | (none, db') =>
                (jsonResp 500 (.obj [("error",
                  .str "Failed to update plugin configuration")]), db')
      | none =>
        match updatePluginConfig db configId
            { enabled := bodyEnabled.map truthy } now with
        | (some row, db') => (jsonResp 200 (putByIdSuccessBody row), db')
        | (none, db') =>
          (jsonResp 500 (.obj [("error",
            .str "Failed to update plugin configuration")]), db')

/-- DELETE /api/plugins/:id (route.ts:412-455): lookup, ownership check,
then DELETE. -/
def deletePluginsById (userId : String) (configId : Nat) (db : PluginDb) :
    HttpResponse × PluginDb :=
  match getPluginConfigById db configId with
  | none =>
    (jsonResp 404 (.obj [("error", .str "Plugin configuration not found")]), db)
  | some existing =>
    if existing.user_id ≠ userId then
      (jsonResp 403 (.obj [("error",
        .str "You do not have permission to delete this configuration")]), db)
    else
      match deletePluginConfig db configId with
      | (true, db') => (jsonResp 200 (.obj [("success", .bool true)]), db')
      | (false, db') =>
        (jsonResp 500 (.obj [("error",
          .str "Failed to delete plugin configuration")]), db')

/-! ### Agent store (agent-db.ts) and agent creation route
(api/agents/route.ts) -/

/-- JS a || b on an optional string: the string when truthy, else the
fallback. -/
def jsOrStr (v : Option String) (d : String) : String :=
  match v with
  | some s => if s = "" then d else s
  | none => d

/-- JS a || b between two optional strings. -/
def jsOrOpt (a b : Option String) : Option String :=
  match a with
  | some s => if s = "" then b else a
  | none => b

/-- Truthiness of an optional string. -/
def truthyStr (v : Option String) : Bool :=
  match v with
  | some s => s ≠ ""
  | none => false

/-- A row of the agents table (agent-db.ts:66-83).  Every column is
filled by create, so the row fields are total; is_active is stored 0/1
and converted back to a boolean by rowToAgent. -/
structure AgentRow where
  id : Nat
  name : String
  description : String
  status : String
  created_at : String
  updated_at : String
  userId : String
  chatbot_name : String
  system_prompt : String
  top_color : String
  accent_color : String
  background_color : String
  is_active : Bool
  avatar_url : String
  workflow_id : String
deriving Repr, DecidableEq

/-- The agents table with its AUTOINCREMENT counter. -/
structure AgentDb where
  rows : List AgentRow
  nextId : Nat
deriving Repr, DecidableEq

/-- The data argument of SQLiteAgentDatabase.create: a Partial Agent,
undefined fields modelled by none. -/
structure AgentCreateData where
  name : Option String := none
  description : Option String := none
  status : Option String := none
  userId : Option String := none
  chatbot_name : Option String := none
  system_prompt : Option String := none
  top_color : Option String := none
  accent_color : Option String := none
  background_color : Option String := none
  is_active : Option Bool := none
  avatar_url : Option String := none
  workflow_id : Option String := none

/-- SQLiteAgentDatabase.getById (agent-db.ts:190-194). -/
def agentGetById (db : AgentDb) (id : Nat) : Option AgentRow :=
  db.rows.find? fun r => r.id = id

/-- SQLiteAgentDatabase.create (agent-db.ts:112-143): INSERT with the
documented || defaults for every column, both timestamps now, then a
re-read of the fresh row. -/
def agentCreate (db : AgentDb) (data : AgentCreateData) (now : String) :
    AgentRow × AgentDb :=
  let row : AgentRow :=
    { id := db.nextId,
      name := jsOrStr data.name "New Agent",
      description := jsOrStr data.description "",
      status := jsOrStr data.status "online",
      created_at := now,
      updated_at := now,
      userId := jsOrStr data.userId "default-user",
      chatbot_name := jsOrStr (jsOrOpt data.chatbot_name data.name) "AI Assistant",
      system_prompt := jsOrStr data.system_prompt "You are a helpful AI assistant.",
      top_color := jsOrStr data.top_color "#1f2937",
      accent_color := jsOrStr data.accent_color "#3B82F6",
      background_color := jsOrStr data.background_color "#F3F4F6",
      is_active := data.is_active.elim true id,
      avatar_url := jsOrStr data.avatar_url "",
      workflow_id := jsOrStr data.workflow_id "1" }
  (row, { rows := db.rows ++ [row], nextId := db.nextId + 1 })

/-- An agent row as serialized into a JSON response (SELECT * then
rowToAgent then NextResponse.json): exactly the table's columns, with
is_active as a boolean. -/
def agentJson (a : AgentRow) : Json :=
  .obj [("id", .num (a.id : Int)), ("name", .str a.name),
        ("description", .str a.description), ("status", .str a.status),
        ("created_at", .str a.created_at), ("updated_at", .str a.updated_at),
        ("userId", .str a.userId), ("chatbot_name", .str a.chatbot_name),
        ("system_prompt", .str a.system_prompt), ("top_color", .str a.top_color),
        ("accent_color", .str a.accent_color),
        ("background_color", .str a.background_color),
        ("is_active", .bool a.is_active), ("avatar_url", .str a.avatar_url),
        ("workflow_id", .str a.workflow_id)]

/-- POST /api/agents (api/agents/route.ts:30-81), after authentication:
destructure the body (isActive defaulting to true), 400 on a missing
name, then create the agent with the authenticated userId and respond 201
with the stored row. -/
def postAgents (userId : String) (name description chatbotName systemPrompt
    topColor accentColor backgroundColor avatarUrl workflowId : Option String)
    (isActive : Option Bool) (db : AgentDb) (now : String) :
    HttpResponse × AgentDb :=
  let isActiveVal := isActive.getD true
  if !truthyStr name then
    (jsonResp 400 (.obj [("error", .str "Missing required fields")]), db)
  else
    let created := agentCreate db
      { name := name, description := description, userId := some userId,
        status := some (if isActiveVal then "online" else "offline"),
        is_active := some isActiveVal,
        chatbot_name := jsOrOpt chatbotName name,
        system_prompt := systemPrompt, top_color := topColor,
        accent_color := accentColor, background_color := backgroundColor,
        avatar_url := avatarUrl, workflow_id := workflowId } now
    (jsonResp 201 (.obj [("agent", agentJson created.1)]), created.2)

/-! ### Account store (account-db.ts, SQLiteAccountDatabase) and
ensureAccountExists (account-utils.ts) -/

/-- The Auth0 profile returned by getAuth0UserById when available. -/
structure Auth0User where
  name : Option String := none
  picture : Option String := none
  last_login : Option String := none
  logins_count : Option Int := none
  created_at : Option String := none

/-- A row of the accounts table (account-db.ts:111-124), which doubles as
the AccountInfo record flowing through account-utils.ts. -/
structure AccountRow where
  accountId : String
  userId : String
  email : String
  createdAt : String
  lastLogin : String
  name : Option String
  picture : Option String
  metadata : Option String
deriving Repr, DecidableEq

/-- The accounts table in rowid order. -/
abbrev AccountDb := List AccountRow

/-- SQLiteAccountDatabase.getAccountByUserId (account-db.ts:129-133). -/
def getAccountByUserId (s : AccountDb) (userId : String) : Option AccountRow :=
  s.find? fun a => a.userId = userId

/-- SQLiteAccountDatabase.getAccountByEmail (account-db.ts:135-139). -/
def getAccountByEmail (s : AccountDb) (email : String) : Option AccountRow :=
  s.find? fun a => a.email = email

/-- SQLiteAccountDatabase.createAccount (account-db.ts:147-167): plain
INSERT; violating the accountId primary key or the userId/email UNIQUE
constraints throws out of createAccount (it has no catch). -/
def createAccount (s : AccountDb) (a : AccountRow) : Except Unit AccountDb :=
  if s.any fun r =>
      r.accountId = a.accountId || r.userId = a.userId || r.email = a.email then
    .error ()
  else .ok (s ++ [a])

/-- SQLiteAccountDatabase.updateAccount (account-db.ts:169-192): UPDATE
of every column except createdAt, WHERE accountId matches; returns the
argument. -/
def updateAccount (s : AccountDb) (a : AccountRow) : AccountDb :=
  s.map fun r =>
    if r.accountId = a.accountId then
      { r with
        userId := a.userId, email := a.email, lastLogin := a.lastLogin,
        name := a.name, picture := a.picture, metadata := a.metadata }
    else r

/-- The metadata blob stored for a newly created account when an Auth0
profile is available (account-utils.ts:99-103 plus the stringify in
createAccount). -/
def auth0Metadata (u : Auth0User) : String :=
  jsonStringify (jsObjOfOpt
    [("auth0_last_login", u.last_login.map .str),
     ("auth0_logins_count", u.logins_count.map .num),
     ("auth0_created_at", u.created_at.map .str)])

/-- ensureAccountExists (account-utils.ts:55-112).  now stands for the
new Date().toISOString() stamps; auth0User for the (caught) result of
getAuth0UserById; newAccountId for the generated account id — the sha256
consistent id when an Auth0 profile exists, the acc_ uuid fallback
otherwise (the generator itself is outside the model).  Lookup order:
first by userId, then by email; either hit gets its lastLogin stamped and
is written back; only when both miss is a fresh account inserted. -/
def ensureAccountExists (s : AccountDb) (userId email : String) (now : String)
    (auth0User : Option Auth0User) (newAccountId : String) :
    Except Unit (AccountRow × AccountDb) :=
  match getAccountByUserId s userId with
  | some account =>
      let account' := { account with lastLogin := now }
      .ok (account', updateAccount s account')
  | none =>
    match getAccountByEmail s email with
    | some account =>
        let account' := { account with lastLogin := now }
        .ok (account', updateAccount s account')
    | none =>
        let newAccount : AccountRow :=
          { accountId := newAccountId, userId := userId, email := email,
            createdAt := now, lastLogin := now,
            name := some (jsOrStr (auth0User.bind fun u => u.name)
              ("User " ++ userId.take 8)),
            picture := auth0User.bind fun u => u.picture,
            metadata := auth0User.map auth0Metadata }
        match createAccount s newAccount with
        | .ok s' => .ok (newAccount, s')
        | .error e => .error e

/-- Two rows agreeing on the UNIQUE(plugin_id, user_id, agent_id) key. -/
def SameTriple (a b : PluginConfigRow) : Prop :=
  a.plugin_id = b.plugin_id ∧ a.user_id = b.user_id ∧ a.agent_id = b.agent_id

/-- Well-formedness of the plugin_configs table, as guaranteed by SQLite:
rowids are unique and below the AUTOINCREMENT counter, and at most one
row exists per (plugin_id, user_id, agent_id). -/
def DbWF (db : PluginDb) : Prop :=
  (db.rows.map fun r => r.id).Nodup ∧
  (∀ r ∈ db.rows, r.id < db.nextId) ∧
  db.rows.Pairwise fun a b => ¬ SameTriple a b

/-- One POST /api/plugins request (authenticated user plus body). -/
structure PostReq where
  userId : String
  pluginId : String
  agentId : Int
  config : Option Json
  enabledField : Option Json
  now : String

/-- The table after serving one POST /api/plugins request. -/
def applyPost (reg : List Plugin) (db : PluginDb) (r : PostReq) : PluginDb :=
  (postPlugins reg r.userId r.pluginId r.agentId r.config r.enabledField db r.now).2

/-! ### Concrete fixtures used by the theorems below -/

/-- Fixture: a plugin-config row owned by user alice. -/
def c1Row : PluginConfigRow :=
  { id := 1, plugin_id := "whatsapp", user_id := "alice", agent_id := 5,
    platform := "whatsapp", config := "\x7b\x7d", enabled := false,
    created_at := "T0", updated_at := "T0" }

/-- Fixture: a second stored row, owned by bob, used as the frame row. -/
def c10OtherRow : PluginConfigRow :=
  { id := 2, plugin_id := "wordpress", user_id := "bob", agent_id := 7,
    platform := "wordpress", config := "x", enabled := true,
    created_at := "T0", updated_at := "T0" }

/-- Fixture: a row owned by bob sharing c1Row's plugin_id and agent_id,
so rewriting c1Row's user_id to "bob" collides on the UNIQUE triple. -/
def c10CollideRow : PluginConfigRow :=
  { id := 2, plugin_id := "whatsapp", user_id := "bob", agent_id := 5,
    platform := "whatsapp", config := "x", enabled := true,
    created_at := "T0", updated_at := "T0" }

/-- Fixture: a well-formed WhatsApp webhook payload. -/
def c4Payload : Json :=
  .obj [("entry", .arr [.obj [("changes", .arr [.obj [("value",
    .obj [("messages", .arr [.obj [("from", .str "155"),
      ("text", .obj [("body", .str "hi")])]])])]])]])]

/-- Fixture: a WhatsApp config whose phoneNumberId is a (truthy) number
and whose required verifyToken is omitted. -/
def c2BadConfig : Json :=
  .obj [("phoneNumberId", .num 123), ("accessToken", .str "0123456789"),
        ("apiVersion", .str "v17.0"), ("businessName", .str "B")]

/-- Fixture: a WhatsApp config with string values that omits the required
verifyToken field. -/
def c2MissingConfig : Json :=
  .obj [("phoneNumberId", .str "123"), ("accessToken", .str "0123456789x"),
        ("apiVersion", .str "v17.0"), ("businessName", .str "B")]

/-- Fixture: a WhatsApp plugin config passing validation. -/
def c6GoodConfig : Json :=
  .obj [("phoneNumberId", .str "123"), ("accessToken", .str "0123456789x"),
        ("apiVersion", .str "v17.0"), ("verifyToken", .str "t"),
        ("businessName", .str "B")]

/-- Fixture: the WhatsApp plugin state after a successful initialize. -/
def c6EnabledState : PluginState :=
  { plugin := whatsappPlugin, config := c6GoodConfig, enabled := true }

/-- Fixture: the row created by a first POST /plugins for (whatsapp, u1,
agent 5). -/
def c3Row : PluginConfigRow :=
  { id := 1, plugin_id := "whatsapp", user_id := "u1", agent_id := 5,
    platform := "whatsapp", config := jsonStringify c6GoodConfig,
    enabled := false, created_at := "T1", updated_at := "T1" }

/-- Fixture: a second, different valid WhatsApp config. -/
def c3NewConfig : Json :=
  .obj [("phoneNumberId", .str "123"), ("accessToken", .str "0123456789x"),
        ("apiVersion", .str "v17.0"), ("verifyToken", .str "t"),
        ("businessName", .str "C")]

/-- Fixture: a stored account owned by identity u1 with email e@x. -/
def c8Row : AccountRow :=
  { accountId := "a1", userId := "u1", email := "e@x", createdAt := "T0",
    lastLogin := "T0", name := none, picture := none, metadata := none }

/-! ## Helper lemmas -/

theorem lookup_setKey_ne {α : Type} (l : List (String × α)) (k k' : String)
    (v : α) (h : k' ≠ k) : (setKey l k v).lookup k' = l.lookup k' := by
  induction l with
  | nil =>
    have hb : (k' == k) = false := by simp [h]
    simp [setKey, List.lookup, hb]
  | cons hd tl ih =>
    obtain ⟨a, b⟩ := hd
    by_cases hak : a = k
    · have hb1 : (k' == k) = false := by simp [h]
      have hb2 : (k' == a) = false := by
        simp [show k' ≠ a from fun hh => h (hh.trans hak)]
      simp [setKey, if_pos hak, List.lookup, hb1, hb2]
    · simp only [setKey, if_neg hak, List.lookup]
      cases hka : (k' == a) <;> simp [ih]

theorem lookup_setKey_self {α : Type} (m : List (String × α)) (k : String)
    (v : α) : (setKey m k v).lookup k = some v := by
  induction m with
  | nil => simp [setKey, List.lookup]
  | cons hd tl ih =>
    obtain ⟨a, b⟩ := hd
    by_cases hak : a = k
    · simp [setKey, hak, List.lookup]
    · have hka : (k == a) = false := by simp [Ne.symm hak]
      simp [setKey, if_neg hak, List.lookup, hka, ih]

theorem hasKey_setKey (m : ErrMap) (k k' : String) (v : String)
    (h : hasKey m k = true) : hasKey (setKey m k' v) k = true := by
  unfold hasKey at *
  by_cases hkk : k = k'
  · subst hkk
    simp [lookup_setKey_self]
  · rw [lookup_setKey_ne m k' k v hkk]
    exact h

theorem hasKey_setKey_self (m : ErrMap) (k : String) (v : String) :
    hasKey (setKey m k v) k = true := by
  unfold hasKey
  simp [lookup_setKey_self]

theorem hasKey_jsAssign (base overlay : ErrMap) (k : String)
    (h : hasKey base k = true) : hasKey (jsAssign base overlay) k = true := by
  unfold jsAssign
  induction overlay generalizing base with
  | nil => exact h
  | cons hd tl ih =>
    exact ih (setKey base hd.1 hd.2) (hasKey_setKey base k hd.1 hd.2 h)

theorem hasKey_requiredErrors_foldl (schema : List ConfigField) (config : Json)
    (acc : ErrMap) (k : String) (h : hasKey acc k = true) :
    hasKey (schema.foldl (fun errors field =>
      if field.required && isMissing (jsField config field.key) then
        setKey errors field.key (field.label ++ " is required")
      else errors) acc) k = true := by
  induction schema generalizing acc with
  | nil => exact h
  | cons f rest ih =>
    simp only [List.foldl_cons]
    by_cases hc : (f.required && isMissing (jsField config f.key)) = true
    · rw [if_pos hc]
      exact ih _ (hasKey_setKey acc k f.key _ h)
    · rw [if_neg hc]
      exact ih _ h

/-- A required schema field whose value is missing always ends up named in
the generic validation errors. -/
theorem hasKey_requiredErrors (schema : List ConfigField) (config : Json)
    (field : ConfigField) (hmem : field ∈ schema) (hreq : field.required = true)
    (hmiss : isMissing (jsField config field.key) = true) :
    hasKey (requiredErrors schema config) field.key = true := by
  unfold requiredErrors
  suffices haux : ∀ acc : ErrMap, hasKey (schema.foldl (fun errors fld =>
      if fld.required && isMissing (jsField config fld.key) then
        setKey errors fld.key (fld.label ++ " is required")
      else errors) acc) field.key = true from haux []
  induction schema with
  | nil => cases hmem
  | cons f rest ih =>
    intro acc
    rcases List.mem_cons.mp hmem with hf | hf
    · subst hf
      simp only [List.foldl_cons, hreq, hmiss, Bool.and_self, if_pos]
      exact hasKey_requiredErrors_foldl rest config _ _
        (hasKey_setKey_self acc field.key _)
    · simp only [List.foldl_cons]
      by_cases hc : (f.required && isMissing (jsField config f.key)) = true
      · rw [if_pos hc]
        exact ih hf _
      · rw [if_neg hc]
        exact ih hf _

theorem isEmpty_false_of_hasKey (m : ErrMap) (k : String)
    (h : hasKey m k = true) : m.isEmpty = false := by
  cases m with
  | nil => simp [hasKey, List.lookup] at h
  | cons hd tl => rfl

/-- find? by id commutes with an id-preserving row map. -/
theorem find?_id_map (rows : List PluginConfigRow)
    (f : PluginConfigRow → PluginConfigRow) (hf : ∀ r, (f r).id = r.id)
    (id : Nat) :
    (rows.map f).find? (fun r => r.id = id) =
      (rows.find? fun r => r.id = id).map f := by
  induction rows with
  | nil => rfl
  | cons r rest ih =>
    by_cases h : r.id = id
    · simp [List.find?, hf r, h]
    · simp [List.find?, hf r, h, ih]

/-- updatePluginConfig on a present id whose update does not violate the
UNIQUE triple: returns the row rewritten by applyUpdates, keeps the
counter and row count, and rows with another id are exactly preserved. -/
theorem updatePluginConfig_found (db : PluginDb) (id : Nat) (u : RowUpdates)
    (now : String) (row : PluginConfigRow)
    (hrow : getPluginConfigById db id = some row)
    (hnv : updateViolatesUnique db id u now = false) :
    (updatePluginConfig db id u now).1 = some (applyUpdates row u now) ∧
    (updatePluginConfig db id u now).2.nextId = db.nextId ∧
    (updatePluginConfig db id u now).2.rows.length = db.rows.length ∧
    (∀ r ∈ db.rows, r.id ≠ id → r ∈ (updatePluginConfig db id u now).2.rows) ∧
    (∀ r ∈ (updatePluginConfig db id u now).2.rows, r.id ≠ id → r ∈ db.rows) ∧
    getPluginConfigById (updatePluginConfig db id u now).2 id =
      some (applyUpdates row u now) := by
  have hfpres : ∀ r : PluginConfigRow,
      ((fun r => if r.id = id then applyUpdates r u now else r) r).id = r.id := by
    intro r
    by_cases h : r.id = id
    · simp [h, applyUpdates]
    · simp [h]
  have hrow' : (db.rows.find? fun r => r.id = id) = some row := hrow
  have hid : row.id = id := by
    have h := List.find?_some hrow'
    exact of_decide_eq_true h
  have hfind : ((db.rows.map fun r =>
      if r.id = id then applyUpdates r u now else r).find? fun r => r.id = id) =
      some (applyUpdates row u now) := by
    rw [find?_id_map db.rows _ hfpres id, hrow']
    simp [hid]
  have hupdeq : updatePluginConfig db id u now =
      (getPluginConfigById
        ⟨db.rows.map fun r => if r.id = id then applyUpdates r u now else r,
          db.nextId⟩ id,
       ⟨db.rows.map fun r => if r.id = id then applyUpdates r u now else r,
          db.nextId⟩) := by
    unfold updatePluginConfig
    rw [hrow]
    dsimp only
    rw [if_neg (by simp [hnv])]
  refine ⟨?_, ?_, ?_, ?_, ?_, ?_⟩
  · rw [hupdeq]
    exact hfind
  · rw [hupdeq]
  · rw [hupdeq]
    simp
  · intro r hr hrne
    rw [hupdeq]
    exact List.mem_map.mpr ⟨r, hr, by simp [hrne]⟩
  · intro r hr hrne
    rw [hupdeq] at hr
    rcases List.mem_map.mp hr with ⟨r0, hr0, hfr⟩
    by_cases h0 : r0.id = id
    · exfalso
      apply hrne
      rw [if_pos h0] at hfr
      rw [← hfr]
      simp [applyUpdates, h0]
    · rw [if_neg h0] at hfr
      rw [← hfr]
      exact hr0
  · rw [hupdeq]
    exact hfind

/-- updatePluginConfig with updates that do not touch the
(plugin_id, user_id, agent_id) key preserves table well-formedness. -/
theorem updatePluginConfig_wf (db : PluginDb) (id : Nat) (u : RowUpdates)
    (now : String) (hp : u.plugin_id = none) (hu : u.user_id = none)
    (ha : u.agent_id = none) (hwf : DbWF db) :
    DbWF (updatePluginConfig db id u now).2 := by
  obtain ⟨hids, hfresh, htrip⟩ := hwf
  unfold updatePluginConfig
  cases hrow : getPluginConfigById db id with
  | none => exact ⟨hids, hfresh, htrip⟩
  | some row =>
    dsimp only
    by_cases hv : updateViolatesUnique db id u now = true
    · rw [if_pos hv]
      exact ⟨hids, hfresh, htrip⟩
    rw [if_neg hv]
    have hfid : ∀ r : PluginConfigRow,
        ((fun r => if r.id = id then applyUpdates r u now else r) r).id = r.id := by
      intro r
      by_cases h : r.id = id
      · simp [h, applyUpdates]
      · simp [h]
    have hftrip : ∀ r : PluginConfigRow,
        ((fun r => if r.id = id then applyUpdates r u now else r) r).plugin_id
          = r.plugin_id ∧
        ((fun r => if r.id = id then applyUpdates r u now else r) r).user_id
          = r.user_id ∧
        ((fun r => if r.id = id then applyUpdates r u now else r) r).agent_id
          = r.agent_id := by
      intro r
      by_cases h : r.id = id
      · simp [h, applyUpdates, hp, hu, ha]
      · simp [h]
    refine ⟨?_, ?_, ?_⟩
    · have : ((db.rows.map fun r => if r.id = id then applyUpdates r u now else r).map
          fun r => r.id) = db.rows.map fun r => r.id := by
        rw [List.map_map]
        exact List.map_congr_left fun r _ => hfid r
      simpa [this] using hids
    · intro r hr
      rcases List.mem_map.mp hr with ⟨r0, hr0, hfr⟩
      have : r.id = r0.id := by rw [← hfr]; exact hfid r0
      rw [this]
      exact hfresh r0 hr0
    · refine List.Pairwise.map _ ?_ htrip
      intro a b hab hsame
      apply hab
      obtain ⟨h1, h2, h3⟩ := hsame
      obtain ⟨ha1, ha2, ha3⟩ := hftrip a
      obtain ⟨hb1, hb2, hb3⟩ := hftrip b
      exact ⟨by rw [← ha1, ← hb1]; exact h1,
             by rw [← ha2, ← hb2]; exact h2,
             by rw [← ha3, ← hb3]; exact h3⟩

/-- Updates that do not touch the (plugin_id, user_id, agent_id) key never
trip the UNIQUE check on a table with at most one row per triple. -/
theorem updateViolatesUnique_eq_false (db : PluginDb) (id : Nat)
    (u : RowUpdates) (now : String) (hp : u.plugin_id = none)
    (hu : u.user_id = none) (ha : u.agent_id = none)
    (htrip : db.rows.Pairwise fun a b => ¬ SameTriple a b) :
    updateViolatesUnique db id u now = false := by
  cases hcon : updateViolatesUnique db id u now with
  | false => rfl
  | true =>
    exfalso
    rw [updateViolatesUnique, List.any_eq_true] at hcon
    rcases hcon with ⟨r, hr, hrb⟩
    rw [Bool.and_eq_true] at hrb
    rcases hrb with ⟨hrid, hinner⟩
    rw [List.any_eq_true] at hinner
    rcases hinner with ⟨r2, hr2, hrb2⟩
    rw [Bool.and_eq_true, Bool.and_eq_true, Bool.and_eq_true] at hrb2
    rcases hrb2 with ⟨⟨⟨hne, hpl⟩, hus⟩, hag⟩
    have hkey1 : (applyUpdates r u now).plugin_id = r.plugin_id := by
      simp [applyUpdates, hp]
    have hkey2 : (applyUpdates r u now).user_id = r.user_id := by
      simp [applyUpdates, hu]
    have hkey3 : (applyUpdates r u now).agent_id = r.agent_id := by
      simp [applyUpdates, ha]
    have hsame : SameTriple r r2 := by
      refine ⟨?_, ?_, ?_⟩
      · rw [← hkey1]
        exact of_decide_eq_true hpl
      · rw [← hkey2]
        exact of_decide_eq_true hus
      · rw [← hkey3]
        exact of_decide_eq_true hag
    have hrne : r ≠ r2 := by
      intro heq
      apply of_decide_eq_true hne
      rw [← heq]
      exact of_decide_eq_true hrid
    have hsymm : Symmetric fun a b : PluginConfigRow => ¬ SameTriple a b := by
      intro a b hab hba
      exact hab ⟨hba.1.symm, hba.2.1.symm, hba.2.2.symm⟩
    exact htrip.forall hsymm hr hr2 hrne hsame

/-- createPluginConfig preserves table well-formedness: the fresh row
gets an unused rowid and, when it is actually inserted, no existing row
shares its key triple. -/
theorem createPluginConfig_wf (db : PluginDb) (c : NewPluginConfig)
    (now : String) (hwf : DbWF db) : DbWF (createPluginConfig db c now).2 := by
  obtain ⟨hids, hfresh, htrip⟩ := hwf
  unfold createPluginConfig
  cases hany : db.rows.any fun r =>
      r.plugin_id = c.plugin_id && r.user_id = c.user_id &&
      r.agent_id = c.agent_id with
  | true => exact ⟨hids, hfresh, htrip⟩
  | false =>
    rw [if_neg (by simp [hany])]
    have hnone : ∀ r ∈ db.rows, ¬(r.plugin_id = c.plugin_id ∧
        r.user_id = c.user_id ∧ r.agent_id = c.agent_id) := by
      intro r hr hcon
      have : db.rows.any (fun r =>
          r.plugin_id = c.plugin_id && r.user_id = c.user_id &&
          r.agent_id = c.agent_id) = true := by
        apply List.any_eq_true.mpr
        exact ⟨r, hr, by simp [hcon.1, hcon.2.1, hcon.2.2]⟩
      rw [hany] at this
      cases this
    refine ⟨?_, ?_, ?_⟩ <;> dsimp only
    · rw [List.map_append]
      rw [List.nodup_append]
      refine ⟨hids, List.nodup_singleton _, ?_⟩
      intro x hx hx'
      simp only [List.map_cons, List.map_nil, List.mem_singleton] at hx'
      rcases List.mem_map.mp hx with ⟨r0, hr0, hid0⟩
      have hlt := hfresh r0 hr0
      have hxid : x = db.nextId := by simpa using hx'
      omega
    · intro r hr
      rcases List.mem_append.mp hr with h | h
      · have := hfresh r h
        omega
      · simp only [List.mem_singleton] at h
        rw [h]
        simp
    · rw [List.pairwise_append]
      refine ⟨htrip, List.pairwise_singleton _ _, ?_⟩
      intro a ha b hb
      simp only [List.mem_singleton] at hb
      intro hsame
      apply hnone a ha
      obtain ⟨h1, h2, h3⟩ := hsame
      rw [hb] at h1 h2 h3
      exact ⟨h1, h2, h3⟩

/-- find? skips a prefix on which the predicate is everywhere false. -/
theorem find?_append_right {α : Type} {p : α → Bool} (l l' : List α)
    (h : ∀ a ∈ l, p a = false) : (l ++ l').find? p = l'.find? p := by
  induction l with
  | nil => rfl
  | cons a rest ih =>
    simp only [List.cons_append, List.find?, h a (List.mem_cons_self a rest)]
    exact ih fun x hx => h x (List.mem_cons_of_mem a hx)

/-- With unique rowids, looking a member row up by its id finds it. -/
theorem find?_id_of_nodup (rows : List PluginConfigRow) (r : PluginConfigRow)
    (hmem : r ∈ rows) (hnodup : (rows.map fun x => x.id).Nodup) :
    rows.find? (fun x => x.id = r.id) = some r := by
  induction rows with
  | nil => cases hmem
  | cons a rest ih =>
    rcases List.mem_cons.mp hmem with h | h
    · subst h
      simp [List.find?]
    · have hnd := List.nodup_cons.mp hnodup
      have hane : a.id ≠ r.id := by
        intro hcon
        apply hnd.1
        show a.id ∈ List.map (fun x => x.id) rest
        rw [hcon]
        exact List.mem_map.mpr ⟨r, h, rfl⟩
      simp [List.find?, hane, ih h hnd.2]

/-- POST /api/plugins preserves table well-formedness on every path. -/
theorem postPlugins_wf (reg : List Plugin) (userId pluginId : String)
    (agentId : Int) (config : Option Json) (enabledField : Option Json)
    (db : PluginDb) (now : String) (hwf : DbWF db) :
    DbWF (postPlugins reg userId pluginId agentId config enabledField db now).2 := by
  unfold postPlugins
  by_cases hg : (decide (pluginId = "") || decide (agentId = 0) ||
      !truthyOpt config) = true
  · rw [if_pos hg]
    exact hwf
  · rw [if_neg hg]
    cases hplug : getPlugin reg pluginId with
    | none => exact hwf
    | some plugin =>
      dsimp only
      cases hval : validateConfig plugin (config.getD .null) with
      | error e => exact hwf
      | ok vr =>
        dsimp only
        by_cases hv : (!vr.valid) = true
        · rw [if_pos hv]
          exact hwf
        · rw [if_neg hv]
          cases hex : getPluginConfigByPluginId db pluginId userId agentId with
          | some existing =>
            dsimp only
            have hup := updatePluginConfig_wf db existing.id
              { config := some (jsonStringify (config.getD .null)),
                enabled := some (enabledField.elim existing.enabled truthy) }
              now rfl rfl rfl hwf
            rcases hres : updatePluginConfig db existing.id
              { config := some (jsonStringify (config.getD .null)),
                enabled := some (enabledField.elim existing.enabled truthy) }
              now with ⟨o, db'⟩
            rw [hres] at hup
            cases o <;> exact hup
          | none =>
            dsimp only
            have hcr := createPluginConfig_wf db
              { plugin_id := pluginId, user_id := userId, agent_id := agentId,
                platform := plugin.platform,
                config := jsonStringify (config.getD .null),
                enabled := enabledField.elim false truthy } now hwf
            rcases hres : createPluginConfig db
              { plugin_id := pluginId, user_id := userId, agent_id := agentId,
                platform := plugin.platform,
                config := jsonStringify (config.getD .null),
                enabled := enabledField.elim false truthy } now with ⟨o, db'⟩
            rw [hres] at hcr
            cases o <;> exact hcr

/-! ## Claims -/

/-- C1: for every stored plugin-config row and every authenticated request
whose user id differs from the row's user_id, PUT /plugins/:id,
PUT /plugins (configId in the body) and DELETE /plugins/:id all return 403
and leave the whole table unchanged. -/
theorem c1_foreign_user_forbidden (reg : List Plugin) (userId : String)
    (configId : Nat) (bodyConfig bodyEnabled : Option Json) (db : PluginDb)
    (now : String) (row : PluginConfigRow)
    (hrow : getPluginConfigById db configId = some row)
    (hne : row.user_id ≠ userId) (hpos : configId ≠ 0) :
    (putPluginsById reg userId configId bodyConfig bodyEnabled db now).1.status = 403 ∧
    (putPluginsById reg userId configId bodyConfig bodyEnabled db now).2 = db ∧
    (putPlugins reg userId configId bodyConfig bodyEnabled db now).1.status = 403 ∧
    (putPlugins reg userId configId bodyConfig bodyEnabled db now).2 = db ∧
    (deletePluginsById userId configId db).1.status = 403 ∧
    (deletePluginsById userId configId db).2 = db := by
  refine ⟨?_, ?_, ?_, ?_, ?_, ?_⟩ <;>
    simp [putPluginsById, putPlugins, deletePluginsById, hrow, hne, hpos, jsonResp]

/-- C1 witness: user mallory hitting alice's row gets 403 from all three
handlers, with the table untouched. -/
theorem c1_witness :
    (putPluginsById [] "mallory" 1 none none ⟨[c1Row], 2⟩ "T1").1.status = 403 ∧
    (putPluginsById [] "mallory" 1 none none ⟨[c1Row], 2⟩ "T1").2 = ⟨[c1Row], 2⟩ ∧
    (putPlugins [] "mallory" 1 none none ⟨[c1Row], 2⟩ "T1").1.status = 403 ∧
    (putPlugins [] "mallory" 1 none none ⟨[c1Row], 2⟩ "T1").2 = ⟨[c1Row], 2⟩ ∧
    (deletePluginsById "mallory" 1 ⟨[c1Row], 2⟩).1.status = 403 ∧
    (deletePluginsById "mallory" 1 ⟨[c1Row], 2⟩).2 = ⟨[c1Row], 2⟩ :=
  c1_foreign_user_forbidden [] "mallory" 1 none none ⟨[c1Row], 2⟩ "T1" c1Row
    rfl (by decide) (by decide)

/-- C5: a POST /webhooks/whatsapp payload (an object) lacking
entry[0].changes makes the WhatsApp plugin's handleWebhook return null,
and the dispatcher acknowledges with 200 "no handler found", producing no
message. -/
theorem c5_whatsapp_malformed_ack (fs : List (String × Json))
    (hmiss : ((jsField (Json.obj fs) "entry").bind jsIndex0).bind
      (fun e => jsField e "changes") = none) :
    whatsappHandleWebhook (spreadWithPlatform (Json.obj fs) "whatsapp") = .ok none ∧
    (webhookPOST loadedRegistry "whatsapp" (Json.obj fs)).1.status = 200 ∧
    jsField (webhookPOST loadedRegistry "whatsapp" (Json.obj fs)).1.body "message" =
      some (.str "Webhook received but no handler found") ∧
    (runPlugins (spreadWithPlatform (Json.obj fs) "whatsapp")
      (getPluginsByPlatform loadedRegistry "whatsapp")).1 = none := by
  have hentry : jsField (Json.obj (setKey fs "platform" (.str "whatsapp"))) "entry" =
      jsField (Json.obj fs) "entry" := by
    simpa [jsField] using lookup_setKey_ne fs "platform" "entry" (.str "whatsapp") (by decide)
  have hsp : spreadWithPlatform (Json.obj fs) "whatsapp" =
      Json.obj (setKey fs "platform" (.str "whatsapp")) := rfl
  have hobj : truthy (Json.obj (setKey fs "platform" (.str "whatsapp"))) = true := rfl
  have hw : whatsappHandleWebhook (spreadWithPlatform (Json.obj fs) "whatsapp") = .ok none := by
    rw [hsp]
    unfold whatsappHandleWebhook
    rw [hentry]
    cases h1 : jsField (Json.obj fs) "entry" with
    | none => rfl
    | some entry =>
      rw [h1] at hmiss
      simp only [Option.some_bind] at hmiss
      rcases Bool.eq_false_or_eq_true (truthy entry) with hte | hte
      · cases h2 : jsIndex0 entry with
        | none => simp [hobj, hte, h2]
        | some e0 =>
          rw [h2] at hmiss
          simp only [Option.some_bind] at hmiss
          rcases Bool.eq_false_or_eq_true (truthy e0) with ht0 | ht0
          · simp [hobj, hte, h2, ht0, hmiss]
          · simp [hobj, hte, h2, ht0]
      · simp [hobj, hte]
  have hreg : getPluginsByPlatform loadedRegistry "whatsapp" = [whatsappPlugin] := by rfl
  have hrun : runPlugins (spreadWithPlatform (Json.obj fs) "whatsapp") [whatsappPlugin] =
      (none, ["whatsapp"]) := by
    simp [runPlugins, whatsappPlugin, hw]
  refine ⟨hw, ?_, ?_, ?_⟩ <;>
    simp [webhookPOST, hreg, hrun, jsonResp, jsField, List.lookup]

/-- The dispatcher loop stops at the first plugin returning a message:
plugins before it that returned null or threw are all invoked, the
match-winning plugin is invoked, and nothing after it runs. -/
theorem runPlugins_first_match (payload : Json) (pre : List Plugin)
    (p : Plugin) (post : List Plugin) (m : ChatMessage)
    (hpre : ∀ q ∈ pre, q.handleWebhook payload = .ok none ∨
      q.handleWebhook payload = .error ())
    (hp : p.handleWebhook payload = .ok (some m)) :
    runPlugins payload (pre ++ p :: post) =
      (some m, (pre ++ [p]).map fun q => q.id) := by
  induction pre with
  | nil => simp [runPlugins, hp]
  | cons q rest ih =>
    rcases hpre q (List.mem_cons_self q rest) with h | h <;>
      simp [runPlugins, h, ih fun r hr => hpre r (List.mem_cons_of_mem q hr)]

/-- C4: webhook dispatch returns 404 when no registered plugin has the
requested platform; otherwise the matching plugins are offered the
payload in registration order and the first non-null message wins — the
response is the success acknowledgment and the plugins after the winner
are never invoked, while plugins before it that returned null or threw
were all invoked (one plugin's exception does not stop the loop). -/
theorem c4_dispatch_first_match (reg : List Plugin) (platform : String)
    (payload : Json) (hplat : platform ≠ "") :
    (getPluginsByPlatform reg platform = [] →
      (webhookPOST reg platform payload).1.status = 404) ∧
    (∀ pre p post m,
      getPluginsByPlatform reg platform = pre ++ p :: post →
      (∀ q ∈ pre, q.handleWebhook (spreadWithPlatform payload platform) = .ok none ∨
        q.handleWebhook (spreadWithPlatform payload platform) = .error ()) →
      p.handleWebhook (spreadWithPlatform payload platform) = .ok (some m) →
      (webhookPOST reg platform payload).1 = jsonResp 200 (.obj
        [("success", .bool true),
         ("message", .str "Webhook processed successfully"),
         ("platform", .str platform)]) ∧
      (webhookPOST reg platform payload).2 = (pre ++ [p]).map fun q => q.id) := by
  constructor
  · intro hempty
    simp [webhookPOST, hplat, hempty, jsonResp]
  · intro pre p post m hsplit hpre hp
    have hrun := runPlugins_first_match (spreadWithPlatform payload platform)
      pre p post m hpre hp
    constructor <;> simp [webhookPOST, hplat, hsplit, hrun, jsonResp]

/-- C4 witness: on the loaded registry, a well-formed WhatsApp payload is
answered with the success acknowledgment and only the whatsapp plugin was
invoked. -/
theorem c4_witness :
    (webhookPOST loadedRegistry "whatsapp" c4Payload).1 = jsonResp 200 (.obj
      [("success", .bool true),
       ("message", .str "Webhook processed successfully"),
       ("platform", .str "whatsapp")]) ∧
    (webhookPOST loadedRegistry "whatsapp" c4Payload).2 = ["whatsapp"] :=
  (c4_dispatch_first_match loadedRegistry "whatsapp" c4Payload (by decide)).2
    [] whatsappPlugin []
    { agentId := some (.num 1), platform := "whatsapp", direction := "incoming",
      messageType := "text", content := .str "hi", userId := some (.str "155"),
      userName := none, metadata := some (.obj []) }
    rfl (by simp) rfl

/-- C5 witness: the concrete payload with an entry but no changes gets the
200 no-handler acknowledgment and no message. -/
theorem c5_witness :
    whatsappHandleWebhook
      (spreadWithPlatform (Json.obj [("entry", .arr [.obj [("x", .num 1)]])]) "whatsapp") = .ok none ∧
    (webhookPOST loadedRegistry "whatsapp"
      (Json.obj [("entry", .arr [.obj [("x", .num 1)]])])).1.status = 200 ∧
    jsField (webhookPOST loadedRegistry "whatsapp"
      (Json.obj [("entry", .arr [.obj [("x", .num 1)]])])).1.body "message" =
      some (.str "Webhook received but no handler found") ∧
    (runPlugins (spreadWithPlatform (Json.obj [("entry", .arr [.obj [("x", .num 1)]])]) "whatsapp")
      (getPluginsByPlatform loadedRegistry "whatsapp")).1 = none :=
  c5_whatsapp_malformed_ack [("entry", .arr [.obj [("x", .num 1)]])] rfl

/-- C2 counterexample: a POST /plugins body for the registered WhatsApp
plugin that omits the required verifyToken field but carries a numeric
phoneNumberId is answered with 500, not 400: the platform validation hook
calls .match on the number and throws, and the route's catch converts
that to 500.  No row is written either way. -/
theorem c2_counterexample :
    isMissing (jsField c2BadConfig "verifyToken") = true ∧
    ((whatsappPlugin.configSchema.find? fun f => f.key = "verifyToken").map
      fun f => f.required) = some true ∧
    (postPlugins loadedRegistry "u1" "whatsapp" 5 (some c2BadConfig) none
      ⟨[], 1⟩ "T1").1.status = 500 ∧
    (postPlugins loadedRegistry "u1" "whatsapp" 5 (some c2BadConfig) none
      ⟨[], 1⟩ "T1").1.status ≠ 400 ∧
    (postPlugins loadedRegistry "u1" "whatsapp" 5 (some c2BadConfig) none
      ⟨[], 1⟩ "T1").2 = ⟨[], 1⟩ := by
  refine ⟨rfl, rfl, rfl, ?_, rfl⟩
  intro hcon
  have h500 : (postPlugins loadedRegistry "u1" "whatsapp" 5 (some c2BadConfig)
      none ⟨[], 1⟩ "T1").1.status = 500 := rfl
  rw [hcon] at h500
  cases h500

/-- C2 as amended: for every registered plugin and authenticated POST
/plugins whose config omits (or sets to undefined, null or the empty
string) a required schema field, no plugin-config row is created or
updated; and whenever the plugin's platform validation hook returns
normally on that config, the response is status 400 whose
validationErrors name the missing field (when the hook itself throws —
e.g. the WhatsApp hook on a truthy non-string phoneNumberId — the route
answers 500 instead, still without writing). -/
theorem c2_missing_required_rejected (reg : List Plugin)
    (userId pluginId : String) (agentId : Int) (cfg : Json)
    (enabledField : Option Json) (db : PluginDb) (now : String)
    (plugin : Plugin) (field : ConfigField)
    (hplug : getPlugin reg pluginId = some plugin)
    (hmem : field ∈ plugin.configSchema)
    (hreq : field.required = true)
    (hmiss : isMissing (jsField cfg field.key) = true)
    (hpid : pluginId ≠ "") (hagent : agentId ≠ 0) (hcfg : truthy cfg = true) :
    (postPlugins reg userId pluginId agentId (some cfg) enabledField db now).2 = db ∧
    ∀ errs, plugin.onValidateConfig cfg = .ok errs →
      (postPlugins reg userId pluginId agentId (some cfg) enabledField db now).1.status = 400 ∧
      jsField (postPlugins reg userId pluginId agentId (some cfg) enabledField
        db now).1.body "validationErrors" =
        some (errsToJson (jsAssign (requiredErrors plugin.configSchema cfg) errs)) ∧
      hasKey (jsAssign (requiredErrors plugin.configSchema cfg) errs)
        field.key = true := by
  have hbase : hasKey (requiredErrors plugin.configSchema cfg) field.key = true :=
    hasKey_requiredErrors plugin.configSchema cfg field hmem hreq hmiss
  cases hval : plugin.onValidateConfig cfg with
  | error e =>
    constructor
    · simp [postPlugins, hplug, hpid, hagent, hcfg, truthyOpt, validateConfig,
        hval, Bind.bind, Except.bind]
    · intro errs herrs
      cases herrs
  | ok errs0 =>
    have hk : hasKey (jsAssign (requiredErrors plugin.configSchema cfg) errs0)
        field.key = true := hasKey_jsAssign _ errs0 _ hbase
    have hne : (jsAssign (requiredErrors plugin.configSchema cfg) errs0).isEmpty
        = false := isEmpty_false_of_hasKey _ _ hk
    constructor
    · simp [postPlugins, hplug, hpid, hagent, hcfg, truthyOpt, validateConfig,
        hval, hne, Bind.bind, Except.bind, pure, Except.pure]
    · intro errs herrs
      injection herrs with herrs
      subst herrs
      refine ⟨?_, ?_, hk⟩ <;>
        simp [postPlugins, hplug, hpid, hagent, hcfg, truthyOpt, validateConfig,
          hval, hne, Bind.bind, Except.bind, pure, Except.pure, jsonResp,
          jsField, List.lookup]

/-- C2 witness: posting the string-valued config missing verifyToken for
the WhatsApp plugin yields 400, names verifyToken, and writes nothing. -/
theorem c2_witness :
    (postPlugins loadedRegistry "u1" "whatsapp" 5 (some c2MissingConfig) none
      ⟨[], 1⟩ "T1").2 = ⟨[], 1⟩ ∧
    (postPlugins loadedRegistry "u1" "whatsapp" 5 (some c2MissingConfig) none
      ⟨[], 1⟩ "T1").1.status = 400 ∧
    hasKey (jsAssign (requiredErrors whatsappPlugin.configSchema c2MissingConfig) [])
      "verifyToken" = true := by
  have h := c2_missing_required_rejected loadedRegistry "u1" "whatsapp" 5
    c2MissingConfig none ⟨[], 1⟩ "T1" whatsappPlugin
    { key := "verifyToken", label := "Verify Token", type := .string,
      required := true }
    rfl (by simp [whatsappPlugin, whatsappSchema]) rfl rfl
    (by decide) (by decide) rfl
  exact ⟨h.1, (h.2 [] rfl).1, (h.2 [] rfl).2.2⟩

/-- C6 counterexample: on the real WhatsApp plugin, (a) a successfully
initialized (enabled) plugin re-initialized with an invalid config gets
false back but keeps enabled = true, contradicting the claim that a
validation failure leaves enabled = false; (b) initialize with a numeric
phoneNumberId (all required fields present) throws out of initialize,
contradicting the claim that it never throws to its caller. -/
theorem c6_counterexample :
    initPlugin { plugin := whatsappPlugin, config := .obj [], enabled := false }
      c6GoodConfig = .ok (true, c6EnabledState) ∧
    (initPlugin c6EnabledState (.obj [])).map (fun r => (r.1, r.2.enabled)) =
      .ok (false, true) ∧
    initPlugin c6EnabledState
      (.obj [("phoneNumberId", .num 123), ("accessToken", .str "0123456789x"),
             ("apiVersion", .str "v17.0"), ("verifyToken", .str "t"),
             ("businessName", .str "B")]) = .error () := by
  refine ⟨by rfl, by rfl, by rfl⟩

/-- C6 as amended: provided the platform validation hook returns (does
not throw) on the supplied config, initialize does not throw; on a failed
validation it returns false and leaves the plugin state unchanged (so
enabled stays false only if it already was); when the onInitialize hook
throws it returns false with the config stored and enabled = false; on
success it stores the config, sets enabled = true and returns true. -/
theorem c6_amended (st : PluginState) (config : Json) (vr : ValidationResult)
    (hv : validateConfig st.plugin config = .ok vr) :
    (vr.valid = false → initPlugin st config = .ok (false, st)) ∧
    (vr.valid = true →
      (st.plugin.onInitHook config = .ok () →
        initPlugin st config =
          .ok (true, { st with config := config, enabled := true })) ∧
      (∀ e, st.plugin.onInitHook config = .error e →
        initPlugin st config =
          .ok (false, { st with config := config, enabled := false }))) := by
  refine ⟨fun hinv => ?_, fun hval => ⟨fun hok => ?_, fun e herr => ?_⟩⟩
  · simp [initPlugin, hv, hinv, Bind.bind, Except.bind, pure, Except.pure]
  · simp [initPlugin, hv, hval, hok, Bind.bind, Except.bind, pure, Except.pure]
  · simp [initPlugin, hv, hval, herr, Bind.bind, Except.bind, pure, Except.pure]

/-- C6 witness: initializing a fresh WhatsApp plugin with a valid config
succeeds, storing the config and enabling the plugin. -/
theorem c6_witness :
    initPlugin { plugin := whatsappPlugin, config := .obj [], enabled := false }
      c6GoodConfig = .ok (true, c6EnabledState) :=
  ((c6_amended { plugin := whatsappPlugin, config := .obj [], enabled := false }
    c6GoodConfig { valid := true, errors := [] } rfl).2 rfl).1 rfl

/-- C7 counterexample: the agent created from only a name and read back
(both through the creation response and through getById) has no
temperature field at all — in particular the response does not contain
temperature 0.7. -/
theorem c7_counterexample :
    ((jsField (postAgents "u1" (some "Bot") none none none none none none
        none none none ⟨[], 1⟩ "T1").1.body "agent").map
      fun a => jsField a "temperature") = some none ∧
    ((agentGetById (postAgents "u1" (some "Bot") none none none none none
        none none none none ⟨[], 1⟩ "T1").2 1).map
      fun a => jsField (agentJson a) "temperature") = some none :=
  ⟨rfl, rfl⟩

/-- C7 as amended: creating an agent with only a name responds 201 with
the stored row, whose unspecified fields get the documented defaults
top_color "#1f2937" and the system prompt "You are a helpful AI
assistant." (which contains "helpful AI assistant"); no temperature field
exists on the agent, so none is returned. -/
theorem c7_agent_defaults (userId : String) (db : AgentDb) (now : String) :
    (postAgents userId (some "Bot") none none none none none none none none
      none db now).1.status = 201 ∧
    ∃ a : AgentRow,
      jsField (postAgents userId (some "Bot") none none none none none none
        none none none db now).1.body "agent" = some (agentJson a) ∧
      a.top_color = "#1f2937" ∧
      a.system_prompt = "You are a helpful AI assistant." ∧
      (∃ s1 s2, a.system_prompt = s1 ++ "helpful AI assistant" ++ s2) ∧
      jsField (agentJson a) "temperature" = none := by
  exact ⟨rfl, _, rfl, rfl, rfl, ⟨"You are a ", ".", rfl⟩, rfl⟩

/-- C10 counterexample: the row with id 1 exists, yet updating its user_id
to "bob" collides with row 2 on UNIQUE(plugin_id, user_id, agent_id), so
the call returns null and writes nothing — the table is unchanged, so the
row keeps user_id "alice" and updated_at "T0" — where the claim promises
that the supplied field and updated_at change and that null is returned
only when no row with that id exists. -/
theorem c10_counterexample :
    getPluginConfigById ⟨[c1Row, c10CollideRow], 3⟩ 1 = some c1Row ∧
    updatePluginConfig ⟨[c1Row, c10CollideRow], 3⟩ 1
      { user_id := some "bob" } "T1" = (none, ⟨[c1Row, c10CollideRow], 3⟩) ∧
    c1Row.user_id = "alice" ∧ c1Row.updated_at = "T0" :=
  ⟨rfl, rfl, rfl, rfl⟩

/-- C10 (amended): updatePluginConfig on an absent id returns null with
the table unchanged; when the rewritten row would collide with a distinct
row on UNIQUE(plugin_id, user_id, agent_id) the UPDATE throws, the catch
returns null and the table is unchanged; otherwise it rewrites exactly the
addressed row — the supplied fields are replaced, updated_at is stamped,
id and created_at are untouched, unsupplied fields keep their values —
returns that updated row, and every other row (and the id counter and row
count) is unchanged. -/
theorem c10_partial_update_frame (db : PluginDb) (id : Nat) (u : RowUpdates)
    (now : String) :
    (getPluginConfigById db id = none →
      updatePluginConfig db id u now = (none, db)) ∧
    (updateViolatesUnique db id u now = true →
      updatePluginConfig db id u now = (none, db)) ∧
    (∀ row, getPluginConfigById db id = some row →
      updateViolatesUnique db id u now = false →
      (updatePluginConfig db id u now).1 = some (applyUpdates row u now) ∧
      (updatePluginConfig db id u now).2.nextId = db.nextId ∧
      (updatePluginConfig db id u now).2.rows.length = db.rows.length ∧
      (∀ r ∈ db.rows, r.id ≠ id → r ∈ (updatePluginConfig db id u now).2.rows) ∧
      (∀ r ∈ (updatePluginConfig db id u now).2.rows, r.id ≠ id → r ∈ db.rows) ∧
      (applyUpdates row u now).id = row.id ∧
      (applyUpdates row u now).created_at = row.created_at ∧
      (applyUpdates row u now).updated_at = now ∧
      (u.plugin_id = none → (applyUpdates row u now).plugin_id = row.plugin_id) ∧
      (∀ v, u.plugin_id = some v → (applyUpdates row u now).plugin_id = v) ∧
      (u.user_id = none → (applyUpdates row u now).user_id = row.user_id) ∧
      (∀ v, u.user_id = some v → (applyUpdates row u now).user_id = v) ∧
      (u.agent_id = none → (applyUpdates row u now).agent_id = row.agent_id) ∧
      (∀ v, u.agent_id = some v → (applyUpdates row u now).agent_id = v) ∧
      (u.platform = none → (applyUpdates row u now).platform = row.platform) ∧
      (∀ v, u.platform = some v → (applyUpdates row u now).platform = v) ∧
      (u.config = none → (applyUpdates row u now).config = row.config) ∧
      (∀ v, u.config = some v → (applyUpdates row u now).config = v) ∧
      (u.enabled = none → (applyUpdates row u now).enabled = row.enabled) ∧
      (∀ v, u.enabled = some v → (applyUpdates row u now).enabled = v)) := by
  refine ⟨?_, ?_, ?_⟩
  · intro hnone
    simp [updatePluginConfig, hnone]
  · intro hv
    unfold updatePluginConfig
    cases hrow : getPluginConfigById db id with
    | none => rfl
    | some row =>
      dsimp only
      rw [if_pos hv]
  · intro row hrow hnv
    have hu := updatePluginConfig_found db id u now row hrow hnv
    exact ⟨hu.1, hu.2.1, hu.2.2.1, hu.2.2.2.1, hu.2.2.2.2.1, rfl, rfl, rfl,
      fun h => by simp [applyUpdates, h], fun v h => by simp [applyUpdates, h],
      fun h => by simp [applyUpdates, h], fun v h => by simp [applyUpdates, h],
      fun h => by simp [applyUpdates, h], fun v h => by simp [applyUpdates, h],
      fun h => by simp [applyUpdates, h], fun v h => by simp [applyUpdates, h],
      fun h => by simp [applyUpdates, h], fun v h => by simp [applyUpdates, h],
      fun h => by simp [applyUpdates, h], fun v h => by simp [applyUpdates, h]⟩

/-- C10 witness: updating row 1's config leaves row 2, the counter and
row 1's identity fields in place; an update of the absent id 9 is a no-op
returning null; and a user_id update colliding with row 2's key triple
returns null with the table unchanged. -/
theorem c10_witness :
    (updatePluginConfig ⟨[c1Row, c10OtherRow], 3⟩ 9 { config := some "y" } "T1" =
      (none, ⟨[c1Row, c10OtherRow], 3⟩)) ∧
    ((updatePluginConfig ⟨[c1Row, c10OtherRow], 3⟩ 1 { config := some "y" } "T1").1 =
      some (applyUpdates c1Row { config := some "y" } "T1") ∧
     (applyUpdates c1Row { config := some "y" } "T1").config = "y" ∧
     (applyUpdates c1Row { config := some "y" } "T1").enabled = c1Row.enabled ∧
     c10OtherRow ∈ (updatePluginConfig ⟨[c1Row, c10OtherRow], 3⟩ 1
       { config := some "y" } "T1").2.rows) ∧
    updatePluginConfig ⟨[c1Row, c10CollideRow], 3⟩ 1 { user_id := some "bob" }
      "T1" = (none, ⟨[c1Row, c10CollideRow], 3⟩) := by
  have h := c10_partial_update_frame ⟨[c1Row, c10OtherRow], 3⟩ 1
    { config := some "y" } "T1"
  have h9 := (c10_partial_update_frame ⟨[c1Row, c10OtherRow], 3⟩ 9
    { config := some "y" } "T1").1 rfl
  have hcol := (c10_partial_update_frame ⟨[c1Row, c10CollideRow], 3⟩ 1
    { user_id := some "bob" } "T1").2.1 rfl
  have hs := h.2.2 c1Row rfl rfl
  exact ⟨h9, ⟨hs.1, hs.2.2.2.2.2.2.2.2.2.2.2.2.2.2.2.2.2.1 "y" rfl,
    hs.2.2.2.2.2.2.2.2.2.2.2.2.2.2.2.2.2.2.1 rfl,
    hs.2.2.2.1 c10OtherRow (by simp) (by decide)⟩, hcol⟩

/-- C3: on a well-formed table, a second valid POST /plugins with the
same (pluginId, agentId) by the same user updates the existing row in
place — the response echoes the existing row id as configId, the row
keeps its id, key and created_at but carries the new config text, the
table gains no row — and any sequence of POST /plugins requests preserves
the at-most-one-row-per-(plugin_id, user_id, agent_id) invariant. -/
theorem c3_upsert_idempotent (reg : List Plugin) (userId pluginId : String)
    (agentId : Int) (cfg : Json) (enabledField : Option Json) (db : PluginDb)
    (now : String) (plugin : Plugin) (vr : ValidationResult)
    (row : PluginConfigRow) (hwf : DbWF db)
    (hplug : getPlugin reg pluginId = some plugin)
    (hval : validateConfig plugin cfg = .ok vr) (hvalid : vr.valid = true)
    (hrow : getPluginConfigByPluginId db pluginId userId agentId = some row)
    (hpid : pluginId ≠ "") (hagent : agentId ≠ 0) (hcfg : truthy cfg = true) :
    ((postPlugins reg userId pluginId agentId (some cfg) enabledField db now).1.status = 200 ∧
     jsField (postPlugins reg userId pluginId agentId (some cfg) enabledField
       db now).1.body "configId" = some (.num (row.id : Int)) ∧
     (postPlugins reg userId pluginId agentId (some cfg) enabledField db
       now).2.rows.length = db.rows.length ∧
     (postPlugins reg userId pluginId agentId (some cfg) enabledField db
       now).2.nextId = db.nextId ∧
     (∃ row', getPluginConfigById (postPlugins reg userId pluginId agentId
         (some cfg) enabledField db now).2 row.id = some row' ∧
       row'.id = row.id ∧ row'.config = jsonStringify cfg ∧
       row'.plugin_id = row.plugin_id ∧ row'.user_id = row.user_id ∧
       row'.agent_id = row.agent_id ∧ row'.created_at = row.created_at) ∧
     (∀ r ∈ db.rows, r.id ≠ row.id →
       r ∈ (postPlugins reg userId pluginId agentId (some cfg) enabledField
         db now).2.rows)) ∧
    (∀ (reqs : List PostReq) (db₀ : PluginDb), DbWF db₀ →
      DbWF (reqs.foldl (applyPost reg) db₀)) := by
  have hmem : row ∈ db.rows := List.mem_of_find?_eq_some hrow
  have hbyid : getPluginConfigById db row.id = some row :=
    find?_id_of_nodup db.rows row hmem hwf.1
  have hnv : updateViolatesUnique db row.id
      { config := some (jsonStringify cfg),
        enabled := some (enabledField.elim row.enabled truthy) } now = false :=
    updateViolatesUnique_eq_false db row.id _ now rfl rfl rfl hwf.2.2
  have hu := updatePluginConfig_found db row.id
    { config := some (jsonStringify cfg),
      enabled := some (enabledField.elim row.enabled truthy) } now row hbyid hnv
  rcases hres : updatePluginConfig db row.id
    { config := some (jsonStringify cfg),
      enabled := some (enabledField.elim row.enabled truthy) } now with ⟨o, db2⟩
  rw [hres] at hu
  have ho : o = some (applyUpdates row
      { config := some (jsonStringify cfg),
        enabled := some (enabledField.elim row.enabled truthy) } now) := hu.1
  subst ho
  have hguard : (decide (pluginId = "") || decide (agentId = 0) ||
      !truthyOpt (some cfg)) = false := by
    simp [hpid, hagent, truthyOpt, hcfg]
  have hpost : postPlugins reg userId pluginId agentId (some cfg) enabledField
      db now = (jsonResp 200 (configSuccessBody (applyUpdates row
        { config := some (jsonStringify cfg),
          enabled := some (enabledField.elim row.enabled truthy) } now)), db2) := by
    unfold postPlugins
    rw [if_neg (by simp [hguard])]
    rw [hplug]
    dsimp only [Option.getD]
    rw [hval]
    dsimp only
    rw [if_neg (by simp [hvalid])]
    rw [hrow]
    dsimp only
    rw [hres]
  constructor
  · refine ⟨?_, ?_, ?_, ?_, ?_, ?_⟩
    · rw [hpost]
      rfl
    · rw [hpost]
      simp [configSuccessBody, jsField, List.lookup, jsonResp, applyUpdates]
    · rw [hpost]
      exact hu.2.2.1
    · rw [hpost]
      exact hu.2.1
    · refine ⟨applyUpdates row
        { config := some (jsonStringify cfg),
          enabled := some (enabledField.elim row.enabled truthy) } now,
        ?_, rfl, rfl, rfl, rfl, rfl, rfl⟩
      rw [hpost]
      exact hu.2.2.2.2.2
    · intro r hr hrne
      rw [hpost]
      exact hu.2.2.2.1 r hr hrne
  · intro reqs db₀ hwf0
    induction reqs generalizing db₀ with
    | nil => exact hwf0
    | cons r rest ih =>
      simp only [List.foldl_cons]
      exact ih _ (postPlugins_wf reg r.userId r.pluginId r.agentId r.config
        r.enabledField db₀ r.now hwf0)

/-- C3 witness: re-posting for the same (pluginId, agentId) succeeds with
200, keeps the table at one row, and that row (still id 1) now stores the
new config text. -/
theorem c3_witness :
    (postPlugins loadedRegistry "u1" "whatsapp" 5 (some c3NewConfig) none
      ⟨[c3Row], 2⟩ "T2").1.status = 200 ∧
    (postPlugins loadedRegistry "u1" "whatsapp" 5 (some c3NewConfig) none
      ⟨[c3Row], 2⟩ "T2").2.rows.length = 1 ∧
    (∃ row', getPluginConfigById (postPlugins loadedRegistry "u1" "whatsapp" 5
        (some c3NewConfig) none ⟨[c3Row], 2⟩ "T2").2 1 = some row' ∧
      row'.config = jsonStringify c3NewConfig) := by
  have h := c3_upsert_idempotent loadedRegistry "u1" "whatsapp" 5 c3NewConfig
    none ⟨[c3Row], 2⟩ "T2" whatsappPlugin { valid := true, errors := [] } c3Row
    ⟨by decide, by decide, by simp⟩ rfl rfl rfl rfl (by decide) (by decide) rfl
  rcases h.1 with ⟨h1, _, h3, _, ⟨row', hg, _, hcfg2, _, _, _, _⟩, _⟩
  exact ⟨h1, h3, row', hg, hcfg2⟩

/-- C8 counterexample: two ensureAccountExists calls with userId u2 and an
email already owned by the u1 account leave ZERO rows whose userId is u2
(both calls update the email-matched row instead of creating one), not
exactly one as claimed; the table still has one row. -/
theorem c8_counterexample :
    ((ensureAccountExists [c8Row] "u2" "e@x" "T1" none "f1").bind fun r1 =>
      ensureAccountExists r1.2 "u2" "e@x" "T2" none "f2").map
      (fun r2 => ((r2.2.filter fun a => a.userId = "u2").length, r2.2.length)) =
      .ok (0, 1) := by
  rfl

/-- C8 as amended: for a fresh external identity — no stored account has
the userId and none has the email (and the generated account id is
unused) — two successive ensureAccountExists calls with the same userId
leave exactly one account row for that userId, whose lastLogin was
advanced to the second call's timestamp; the first call adds one row and
the second call adds none. -/
theorem c8_account_creation_idempotent (s : AccountDb)
    (userId email t1 t2 id1 id2 : String) (a1 a2 : Option Auth0User)
    (huser : ∀ a ∈ s, a.userId ≠ userId)
    (hemail : ∀ a ∈ s, a.email ≠ email)
    (hfresh : ∀ a ∈ s, a.accountId ≠ id1) :
    ∃ acc1 s1 acc2 s2,
      ensureAccountExists s userId email t1 a1 id1 = .ok (acc1, s1) ∧
      ensureAccountExists s1 userId email t2 a2 id2 = .ok (acc2, s2) ∧
      s1.length = s.length + 1 ∧
      s2.length = s1.length ∧
      (s2.filter fun a => a.userId = userId).length = 1 ∧
      acc2.lastLogin = t2 ∧ acc2.userId = userId ∧
      acc2.accountId = acc1.accountId := by
  have hu1 : getAccountByUserId s userId = none := by
    unfold getAccountByUserId
    rw [List.find?_eq_none]
    intro a ha
    simp [huser a ha]
  have he1 : getAccountByEmail s email = none := by
    unfold getAccountByEmail
    rw [List.find?_eq_none]
    intro a ha
    simp [hemail a ha]
  set newAcc : AccountRow :=
    { accountId := id1, userId := userId, email := email, createdAt := t1,
      lastLogin := t1,
      name := some (jsOrStr (a1.bind fun u => u.name) ("User " ++ userId.take 8)),
      picture := a1.bind fun u => u.picture,
      metadata := a1.map auth0Metadata } with hnewAcc
  refine ⟨newAcc, s ++ [newAcc], ?_⟩
  have hcall1 : ensureAccountExists s userId email t1 a1 id1 =
      .ok (newAcc, s ++ [newAcc]) := by
    unfold ensureAccountExists
    rw [hu1, he1]
    dsimp only
    unfold createAccount
    have hguard : ¬ ((s.any fun r =>
        r.accountId = newAcc.accountId || r.userId = newAcc.userId ||
        r.email = newAcc.email) = true) := by
      intro hcon
      rcases List.any_eq_true.mp hcon with ⟨a, ha, hpa⟩
      revert hpa
      simp [hnewAcc, hfresh a ha, huser a ha, hemail a ha]
    rw [if_neg hguard]
  have hu2 : getAccountByUserId (s ++ [newAcc]) userId = some newAcc := by
    unfold getAccountByUserId
    rw [find?_append_right s _ fun a ha => by simp [huser a ha]]
    simp [List.find?]
  have hupd : updateAccount (s ++ [newAcc]) { newAcc with lastLogin := t2 } =
      s ++ [{ newAcc with lastLogin := t2 }] := by
    unfold updateAccount
    rw [List.map_append]
    congr 1
    · calc s.map _ = s.map id :=
            List.map_congr_left fun a ha => by simp [hfresh a ha]
        _ = s := List.map_id s
    · simp
  have hcall2 : ensureAccountExists (s ++ [newAcc]) userId email t2 a2 id2 =
      .ok ({ newAcc with lastLogin := t2 }, s ++ [{ newAcc with lastLogin := t2 }]) := by
    unfold ensureAccountExists
    rw [hu2]
    dsimp only
    rw [hupd]
  refine ⟨{ newAcc with lastLogin := t2 },
    s ++ [{ newAcc with lastLogin := t2 }], hcall1, hcall2, by simp, by simp,
    ?_, rfl, rfl, rfl⟩
  rw [List.filter_append]
  have hfs : s.filter (fun a => a.userId = userId) = [] := by
    rw [List.filter_eq_nil_iff]
    intro a ha
    simp [huser a ha]
  rw [hfs]
  simp

/-- C8 witness: from an empty store, two calls for the same fresh
identity produce exactly one row with lastLogin advanced. -/
theorem c8_witness :
    ∃ acc1 s1 acc2 s2,
      ensureAccountExists [] "u1" "e@x" "T1" none "a1" = .ok (acc1, s1) ∧
      ensureAccountExists s1 "u1" "e@x" "T2" none "a2" = .ok (acc2, s2) ∧
      s1.length = 0 + 1 ∧
      s2.length = s1.length ∧
      (s2.filter fun a => a.userId = "u1").length = 1 ∧
      acc2.lastLogin = "T2" ∧ acc2.userId = "u1" ∧
      acc2.accountId = acc1.accountId :=
  c8_account_creation_idempotent [] "u1" "e@x" "T1" "T2" "a1" "a2" none none
    (by simp) (by simp) (by simp)

/-- C9: when no stored account has the caller's userId but one has the
email, ensureAccountExists returns that email-matched account with
lastLogin stamped, keeping its original stored userId (which differs from
the caller's); no row is added, and rows with other account ids are
untouched. -/
theorem c9_email_match_keeps_userId (s : AccountDb)
    (userId email now id : String) (au : Option Auth0User) (acc : AccountRow)
    (huser : ∀ a ∈ s, a.userId ≠ userId)
    (hemail : getAccountByEmail s email = some acc) :
    ensureAccountExists s userId email now au id =
      .ok ({ acc with lastLogin := now },
           updateAccount s { acc with lastLogin := now }) ∧
    (updateAccount s { acc with lastLogin := now }).length = s.length ∧
    ({ acc with lastLogin := now } : AccountRow).userId = acc.userId ∧
    acc.userId ≠ userId ∧
    ({ acc with lastLogin := now } : AccountRow).accountId = acc.accountId ∧
    ({ acc with lastLogin := now } : AccountRow).lastLogin = now ∧
    (∀ r ∈ s, r.accountId ≠ acc.accountId →
      r ∈ updateAccount s { acc with lastLogin := now }) := by
  have hu1 : getAccountByUserId s userId = none := by
    unfold getAccountByUserId
    rw [List.find?_eq_none]
    intro a ha
    simp [huser a ha]
  have hmem : acc ∈ s := List.mem_of_find?_eq_some hemail
  refine ⟨?_, ?_, rfl, huser acc hmem, rfl, rfl, ?_⟩
  · unfold ensureAccountExists
    rw [hu1, hemail]
  · simp [updateAccount]
  · intro r hr hne
    unfold updateAccount
    exact List.mem_map.mpr ⟨r, hr, by simp [hne]⟩

/-- C9 witness: calling with userId u2 and the stored email finds the u1
account, stamps lastLogin, keeps userId u1 and adds no row. -/
theorem c9_witness :
    ensureAccountExists [c8Row] "u2" "e@x" "T1" none "f1" =
      .ok ({ c8Row with lastLogin := "T1" },
           updateAccount [c8Row] { c8Row with lastLogin := "T1" }) ∧
    (updateAccount [c8Row] { c8Row with lastLogin := "T1" }).length = 1 ∧
    ({ c8Row with lastLogin := "T1" } : AccountRow).userId = c8Row.userId ∧
    c8Row.userId ≠ "u2" :=
  have h := c9_email_match_keeps_userId [c8Row] "u2" "e@x" "T1" "f1" none
    c8Row (by decide) rfl
  ⟨h.1, h.2.1, h.2.2.1, h.2.2.2.1⟩

end Spec2Proof
